import Mathlib

/-!
# Dynamic DNS service: the Cloudflare client and the reconciliation driver

A shallow embedding of `cmd/dynamic-dns-service` (`cf.go`, `ip.go`, `main.go`).

* A Go string that holds valid UTF-8 is a Lean string; a Go `error` is represented by its
  message text. Where the bytes of a string matter, in the JSON encoder, the string is the list
  of its bytes (`Json.EncodeGo`), and the text-level encoder is shown to agree with it.
* A Go result pair `(value, error)` is an `Except GoError value`; a lone `error`
  result is an `Option GoError` (`none` is `nil`).
* The services the program talks to (the HTTP transport behind `client.Do` and the
  DNS resolver) are fields of `Runtime`; their states are threaded explicitly and
  every interaction is recorded as an `Event`.
* A response body is represented by what `json.NewDecoder(body).Decode(&cfr)` makes
  of it, for each of the two anonymous `cfr` struct types.
-/

namespace DynamicDns

/-! ## Data model (`cf.go`) -/

/-- A Go `error`, identified with the text `err.Error()` returns. -/
abbrev GoError := String

/-- The `*http.Client` handed to the constructor; only its identity matters here. -/
structure HttpClient where
  timeout : Nat := 0
deriving DecidableEq, Repr

/-- The value of `http.DefaultClient`. -/
def DefaultClient : HttpClient := {}

/-- The struct `CloudflareDNS`. -/
structure CloudflareDNS where
  zoneID : String
  accountID : String
  apiToken : String
  client : HttpClient
  baseURL : String
deriving DecidableEq, Repr

/-- The struct `CloudflareDNSRecord`, the only implementation of `DNSRecord`. -/
structure CloudflareDNSRecord where
  id : String
  name : String
  recordType : String
  content : String
deriving DecidableEq, Repr

/-- Accessor `Name()`. -/
def CloudflareDNSRecord.Name (cdr : CloudflareDNSRecord) : String := cdr.name
/-- Accessor `RecordType()`. -/
def CloudflareDNSRecord.RecordType (cdr : CloudflareDNSRecord) : String := cdr.recordType
/-- Accessor `Content()`. -/
def CloudflareDNSRecord.Content (cdr : CloudflareDNSRecord) : String := cdr.content
/-- Accessor `Identifier()`. -/
def CloudflareDNSRecord.Identifier (cdr : CloudflareDNSRecord) : String := cdr.id

/-- One element of `CloudflareErrors`: a struct with the single field `Message`. -/
structure CloudflareError where
  Message : String
deriving DecidableEq, Repr

/-- The slice type `CloudflareErrors`. -/
abbrev CloudflareErrors := List CloudflareError

/-- One element of the `Result` slice decoded by `readCurrentDNSRecord`
(the Go field `Type` is spelled `RecType`, `Type` being reserved). -/
structure ResultEntry where
  ID : String
  RecType : String
  Name : String
  Content : String
deriving DecidableEq, Repr

/-- The anonymous struct `cfr` that `readCurrentDNSRecord` decodes into. -/
structure ReadResponse where
  Success : Bool
  Errors : CloudflareErrors
  Messages : List String
  Result : List ResultEntry
deriving DecidableEq, Repr

/-- The anonymous struct `cfr` that `handleResponse` decodes into. -/
structure WriteResponse where
  Success : Bool
  Errors : CloudflareErrors
  Messages : List String
deriving DecidableEq, Repr

/-! ## Construction (`NewCloudflareDNS`) -/

/-- The call `os.Getenv`: the value of the variable, or the empty string when unset. -/
def Getenv (environ : String → Option String) (key : String) : String :=
  (environ key).getD ""

/-- The constructor `NewCloudflareDNS(client)`, reading the process environment `environ`. -/
def NewCloudflareDNS (environ : String → Option String) (client : Option HttpClient) :
    Except GoError CloudflareDNS :=
  let zoneID := Getenv environ "CF_ZONE_ID"
  let accountID := Getenv environ "CF_ACCOUNT_ID"
  let apiToken := Getenv environ "CF_API_TOKEN"
  if zoneID = "" ∨ accountID = "" ∨ apiToken = "" then
    .error "missing required environment variables"
  else
    let client := match client with
      | none => DefaultClient
      | some c => c
    .ok { zoneID := zoneID, accountID := accountID, apiToken := apiToken, client := client,
          baseURL := "https://api.cloudflare.com/client/v4" }

/-! ## Response handling (`formatErrorMessage`, `readCurrentDNSRecord`, `handleResponse`) -/

/-- The method `formatErrorMessage`: one `Error:` line per error, then one `Message:` line per
message, behind a fixed prefix. -/
def formatErrorMessage (errors : CloudflareErrors) (messages : List String) : GoError :=
  let errorMsg := errors.foldl (fun acc err => acc ++ ("Error: " ++ err.Message ++ "\n")) ""
  let errorMsg := messages.foldl (fun acc msg => acc ++ ("Message: " ++ msg ++ "\n")) errorMsg
  "unsuccessful API call: " ++ errorMsg

/-- The method `readCurrentDNSRecord`, applied to the outcome `decoded` of
`json.NewDecoder(r).Decode(&cfr)`. The last branch is the index panic of `cfr.Result[0]`,
which the two length checks exclude. -/
def readCurrentDNSRecord (decoded : Except GoError ReadResponse) :
    Except GoError CloudflareDNSRecord :=
  match decoded with
  | .error err => .error ("failed to decode response: " ++ err)
  | .ok cfr =>
    if !cfr.Success then
      .error (formatErrorMessage cfr.Errors cfr.Messages)
    else if cfr.Result.length = 0 then
      .error "no matching DNS record found"
    else if cfr.Result.length > 1 then
      .error "found more than one matching record"
    else
      match cfr.Result[0]? with
      | some result =>
        .ok { id := result.ID, name := result.Name, content := result.Content,
              recordType := result.RecType }
      | none => .error "panic: runtime error: index out of range [0] with length 0"

/-- The method `handleResponse`, applied to the outcome `decoded` of
`json.NewDecoder(r).Decode(&cfr)`. -/
def handleResponse (decoded : Except GoError WriteResponse) : Option GoError :=
  match decoded with
  | .error err => some ("failed to decode response: " ++ err)
  | .ok cfr =>
    if !cfr.Success then
      some (formatErrorMessage cfr.Errors cfr.Messages)
    else
      none

/-- The text `text` contains `part` as a contiguous substring. -/
def TextContains (text part : String) : Prop := part.data <:+: text.data

instance (text part : String) : Decidable (TextContains text part) := by
  unfold TextContains; infer_instance

/-! ## The patch payload and its JSON wire form

`UpdateDNSRecord` hands the struct `dnsPatch` to `json.NewEncoder(&buf).Encode`. The encoder is
Go's `encoding/json`, modelled here for this one struct type: fields in declaration order under
their `json` tags, strings quoted by `appendString` with the default HTML escaping, the integer
in decimal, a trailing newline. `Encode` is the encoder on strings that hold valid UTF-8;
`EncodeGo` is the encoder on arbitrary byte strings, where every byte that is not part of valid
UTF-8 is written as the escape of U+FFFD. `Decode` is the matching model of
`json.Decoder.Decode` into a struct of the same shape: an object of string, integer, boolean or
null members, keys matched case-insensitively, unknown keys skipped, surrounding white space
accepted. -/

/-- The anonymous struct `dnsPatch` of `UpdateDNSRecord` (the Go field `Type` is `RecType`). -/
structure DNSPatch where
  RecType : String
  Name : String
  Content : String
  TTL : Int
  Proxied : Bool
deriving DecidableEq, Repr

/-- The struct `dnsPatch` with its string fields as Go holds them, as byte strings (each byte a
number below 256), valid UTF-8 or not. -/
structure GoPatch where
  RecType : List Nat
  Name : List Nat
  Content : List Nat
  TTL : Int
  Proxied : Bool
deriving DecidableEq, Repr

namespace Json

/-- The double quote character. -/
def dquote : Char := Char.ofNat 34
/-- The backslash character. -/
def bslash : Char := Char.ofNat 92
/-- The opening brace. -/
def lbrace : Char := Char.ofNat 123
/-- The closing brace. -/
def rbrace : Char := Char.ofNat 125

/-- The lookup `hex[n]` in the table `"0123456789abcdef"`. -/
def hexChar (n : Nat) : Char :=
  if n < 10 then Char.ofNat (48 + n) else Char.ofNat (87 + n)

/-- The bytes `appendString` writes for one character with `escapeHTML` set: quote and backslash
get a backslash, the five short control escapes, other control characters and `<`, `>`, `&`
become `\u00XX`, the line and paragraph separators become the six-character escapes of U+2028 and U+2029. -/
def escapeChar (c : Char) : List Char :=
  if c = bslash ∨ c = dquote then [bslash, c]
  else if c.toNat = 8 then [bslash, 'b']
  else if c.toNat = 12 then [bslash, 'f']
  else if c.toNat = 10 then [bslash, 'n']
  else if c.toNat = 13 then [bslash, 'r']
  else if c.toNat = 9 then [bslash, 't']
  else if c.toNat < 32 ∨ c = '<' ∨ c = '>' ∨ c = '&' then
    [bslash, 'u', '0', '0', hexChar (c.toNat / 16), hexChar (c.toNat % 16)]
  else if c.toNat = 8232 ∨ c.toNat = 8233 then
    [bslash, 'u', '2', '0', '2', hexChar (c.toNat % 16)]
  else [c]

/-- The quoted form of a string: `appendString`. -/
def appendString (s : List Char) : List Char :=
  dquote :: (s.flatMap escapeChar ++ [dquote])

/-- The digit loop of `strconv`: peel off the last decimal digit until one digit is left. -/
def formatBits : Nat → Nat → List Char → List Char
  | 0, _, a => a
  | fuel + 1, u, a =>
    if u < 10 then Char.ofNat (48 + u) :: a
    else formatBits fuel (u / 10) (Char.ofNat (48 + u % 10) :: a)

/-- Decimal digits of a natural number. -/
def natDigits (n : Nat) : List Char := formatBits (n + 1) n []

/-- Decimal form of an integer: `strconv.AppendInt(dst, i, 10)`. -/
def appendInt (i : Int) : List Char :=
  if i < 0 then '-' :: natDigits i.natAbs else natDigits i.natAbs

/-- The literals `true` and `false`. -/
def appendBool (b : Bool) : List Char :=
  if b then ['t', 'r', 'u', 'e'] else ['f', 'a', 'l', 's', 'e']

/-- The body `Encode(&dnsPatch)` writes into the request buffer. -/
def Encode (p : DNSPatch) : String :=
  String.mk (lbrace :: (appendString ['t', 'y', 'p', 'e'] ++ ':' :: appendString p.RecType.data
    ++ ',' :: appendString ['n', 'a', 'm', 'e'] ++ ':' :: appendString p.Name.data
    ++ ',' :: appendString ['c', 'o', 'n', 't', 'e', 'n', 't'] ++ ':' :: appendString p.Content.data
    ++ ',' :: appendString ['t', 't', 'l'] ++ ':' :: appendInt p.TTL
    ++ ',' :: appendString ['p', 'r', 'o', 'x', 'i', 'e', 'd'] ++ ':' :: appendBool p.Proxied
    ++ [rbrace, Char.ofNat 10]))

/-- Value of one hexadecimal digit, in either case. -/
def hexVal (c : Char) : Option Nat :=
  if 48 ≤ c.toNat ∧ c.toNat ≤ 57 then some (c.toNat - 48)
  else if 97 ≤ c.toNat ∧ c.toNat ≤ 102 then some (c.toNat - 87)
  else if 65 ≤ c.toNat ∧ c.toNat ≤ 70 then some (c.toNat - 55)
  else none

/-- The helper `getu4`: the number written by the four hex digits of a `\uXXXX` escape. -/
def getu4 (h1 h2 h3 h4 : Char) : Option Nat :=
  match hexVal h1, hexVal h2, hexVal h3, hexVal h4 with
  | some a, some b, some c, some d => some (a * 4096 + b * 256 + c * 16 + d)
  | _, _, _, _ => none

/-- The test `utf16.IsSurrogate`. -/
def isSurrogate (r : Nat) : Bool := 55296 ≤ r && r < 57344

/-- The pairing `utf16.DecodeRune`, `none` standing for the replacement character. -/
def decodeRune (r1 r2 : Nat) : Option Nat :=
  if 55296 ≤ r1 ∧ r1 < 56320 ∧ 56320 ≤ r2 ∧ r2 < 57344 then
    some ((r1 - 55296) * 1024 + (r2 - 56320) + 65536)
  else none

/-- The loop of `unquote`, started behind the opening quote: reads up to the closing quote,
undoing escapes; a lone surrogate escape yields U+FFFD; a raw control character is an error.
Every step consumes input, `fuel` bounds the number of steps. -/
def unquoteAux : Nat → List Char → List Char → Option (List Char × List Char)
  | 0, _, _ => none
  | _ + 1, [], _ => none
  | fuel + 1, c :: rest, acc =>
    if c = dquote then some (acc, rest)
    else if c = bslash then
      match rest with
      | [] => none
      | e :: rest2 =>
        if e = dquote ∨ e = bslash ∨ e = '/' then unquoteAux fuel rest2 (acc ++ [e])
        else if e = 'b' then unquoteAux fuel rest2 (acc ++ [Char.ofNat 8])
        else if e = 'f' then unquoteAux fuel rest2 (acc ++ [Char.ofNat 12])
        else if e = 'n' then unquoteAux fuel rest2 (acc ++ [Char.ofNat 10])
        else if e = 'r' then unquoteAux fuel rest2 (acc ++ [Char.ofNat 13])
        else if e = 't' then unquoteAux fuel rest2 (acc ++ [Char.ofNat 9])
        else if e = 'u' then
          match rest2 with
          | h1 :: h2 :: h3 :: h4 :: rest6 =>
            match getu4 h1 h2 h3 h4 with
            | none => none
            | some rr =>
              if isSurrogate rr then
                match rest6 with
                | b :: u :: g1 :: g2 :: g3 :: g4 :: rest12 =>
                  match (if b = bslash ∧ u = 'u' then getu4 g1 g2 g3 g4 else none).bind
                      (decodeRune rr) with
                  | some dec => unquoteAux fuel rest12 (acc ++ [Char.ofNat dec])
                  | none => unquoteAux fuel rest6 (acc ++ [Char.ofNat 65533])
                | _ => unquoteAux fuel rest6 (acc ++ [Char.ofNat 65533])
              else unquoteAux fuel rest6 (acc ++ [Char.ofNat rr])
          | _ => none
        else none
    else if c.toNat < 32 then none
    else unquoteAux fuel rest (acc ++ [c])

/-- A string literal read from behind its opening quote, with the input that follows it. -/
def unquote (cs : List Char) : Option (List Char × List Char) :=
  unquoteAux cs.length cs []

/-- The test `isSpace` of the scanner: space, tab, carriage return, line feed. -/
def isSpace (c : Char) : Bool :=
  c = ' ' || c.toNat = 9 || c.toNat = 13 || c.toNat = 10

/-- Drop leading white space. -/
def skipSpace : List Char → List Char
  | [] => []
  | c :: rest => if isSpace c then skipSpace rest else c :: rest

/-- A decimal digit. -/
def isDigit (c : Char) : Bool := 48 ≤ c.toNat && c.toNat ≤ 57

/-- Read a run of decimal digits onto the accumulator. -/
def scanDigits : Nat → List Char → Nat × List Char
  | acc, [] => (acc, [])
  | acc, c :: rest =>
    if isDigit c then scanDigits (acc * 10 + (c.toNat - 48)) rest else (acc, c :: rest)

/-- The input behind an integer literal does not continue the number: no further digit (none may
follow a leading zero) and no fraction or exponent, which an `int` field rejects. -/
def endsNumber : List Char → Bool
  | [] => true
  | c :: _ => !(isDigit c || c = '.' || c = 'e' || c = 'E')

/-- The digits of a number literal: a single `0`, or a run of digits that starts with `1`-`9`. -/
def parseNat : List Char → Option (Nat × List Char)
  | [] => none
  | c :: rest =>
    if c = '0' then some (0, rest)
    else if isDigit c then some (scanDigits 0 (c :: rest))
    else none

/-- An integer literal with optional minus sign. -/
def parseInt (cs : List Char) : Option (Int × List Char) :=
  match cs with
  | [] => none
  | c :: rest =>
    match (if c = '-' then parseNat rest else parseNat (c :: rest)) with
    | none => none
    | some (n, rest2) =>
      if endsNumber rest2 then some (if c = '-' then -(n : Int) else (n : Int), rest2)
      else none

/-- The member values this decoder reads. -/
inductive Value where
  | str (s : String)
  | num (i : Int)
  | bool (b : Bool)
  | null
deriving DecidableEq, Repr

/-- One member value: a string, `true`, `false`, `null` or an integer. -/
def parseValue (cs : List Char) : Option (Value × List Char) :=
  match cs with
  | [] => none
  | c :: rest =>
    if c = dquote then (unquote rest).map (fun r => (Value.str (String.mk r.1), r.2))
    else if c = 't' then
      match rest with
      | 'r' :: 'u' :: 'e' :: rest2 => some (Value.bool true, rest2)
      | _ => none
    else if c = 'f' then
      match rest with
      | 'a' :: 'l' :: 's' :: 'e' :: rest2 => some (Value.bool false, rest2)
      | _ => none
    else if c = 'n' then
      match rest with
      | 'u' :: 'l' :: 'l' :: rest2 => some (Value.null, rest2)
      | _ => none
    else (parseInt cs).map (fun r => (Value.num r.1, r.2))

/-- The members of an object, read up to the closing brace. Each round reads one member;
`fuel` bounds the number of rounds. -/
def parseMembers : Nat → List Char → List (String × Value) → Option (List (String × Value))
  | 0, _, _ => none
  | fuel + 1, cs, acc =>
    match skipSpace cs with
    | [] => none
    | q :: rest =>
      if q = dquote then
        match unquote rest with
        | none => none
        | some (key, rest1) =>
          match skipSpace rest1 with
          | [] => none
          | colon :: rest2 =>
            if colon = ':' then
              match parseValue (skipSpace rest2) with
              | none => none
              | some (v, rest3) =>
                match skipSpace rest3 with
                | [] => none
                | sep :: rest4 =>
                  if sep = ',' then parseMembers fuel rest4 (acc ++ [(String.mk key, v)])
                  else if sep = rbrace then some (acc ++ [(String.mk key, v)])
                  else none
            else none
      else none

/-- A JSON object as the list of its members in order of appearance. -/
def parseObject (cs : List Char) : Option (List (String × Value)) :=
  match skipSpace cs with
  | [] => none
  | c :: rest =>
    if c = lbrace then
      match skipSpace rest with
      | [] => none
      | d :: rest1 => if d = rbrace then some [] else parseMembers cs.length (d :: rest1) []
    else none

/-- Case folding of a member key; the five field names are plain ASCII letters. -/
def foldKey (key : String) : String := String.mk (key.data.map Char.toLower)

/-- Store one member into the struct: `null` and unknown keys leave it unchanged, a value of the
wrong kind is an error. -/
def assign (p : DNSPatch) (kv : String × Value) : Option DNSPatch :=
  if kv.2 = Value.null then some p
  else if foldKey kv.1 = "type" then
    match kv.2 with
    | Value.str s => some { p with RecType := s }
    | _ => none
  else if foldKey kv.1 = "name" then
    match kv.2 with
    | Value.str s => some { p with Name := s }
    | _ => none
  else if foldKey kv.1 = "content" then
    match kv.2 with
    | Value.str s => some { p with Content := s }
    | _ => none
  else if foldKey kv.1 = "ttl" then
    match kv.2 with
    | Value.num i => some { p with TTL := i }
    | _ => none
  else if foldKey kv.1 = "proxied" then
    match kv.2 with
    | Value.bool b => some { p with Proxied := b }
    | _ => none
  else some p

/-- Store the members one after another, later ones overriding earlier ones. -/
def assignAll : List (String × Value) → DNSPatch → Option DNSPatch
  | [], p => some p
  | kv :: rest, p => (assign p kv).bind (assignAll rest)

/-- The struct a request body decodes to, starting from the zero value; `none` when the body is
not an object of the supported form. -/
def Decode (body : String) : Option DNSPatch :=
  (parseObject body.data).bind (fun members => assignAll members ⟨"", "", "", 0, false⟩)

/-! ### The encoder on byte strings -/

/-- The constant `utf8.RuneError`, U+FFFD. -/
def RuneError : Nat := 65533

/-- The bytes `utf8.AppendRune` writes for a character: its UTF-8 encoding. -/
def encodeRune (c : Char) : List Nat :=
  if c.toNat < 128 then [c.toNat]
  else if c.toNat < 2048 then [192 + c.toNat / 64, 128 + c.toNat % 64]
  else if c.toNat < 65536 then
    [224 + c.toNat / 4096, 128 + c.toNat / 64 % 64, 128 + c.toNat % 64]
  else
    [240 + c.toNat / 262144, 128 + c.toNat / 4096 % 64, 128 + c.toNat / 64 % 64,
      128 + c.toNat % 64]

/-- The table `first` of `unicode/utf8` for a leading byte of a sequence of two to four bytes:
the length of the sequence and the range accepted for its second byte; `none` for a byte that
starts no such sequence. -/
def first (s0 : Nat) : Option (Nat × Nat × Nat) :=
  if 194 ≤ s0 ∧ s0 ≤ 223 then some (2, 128, 191)
  else if s0 = 224 then some (3, 160, 191)
  else if 225 ≤ s0 ∧ s0 ≤ 236 then some (3, 128, 191)
  else if s0 = 237 then some (3, 128, 159)
  else if 238 ≤ s0 ∧ s0 ≤ 239 then some (3, 128, 191)
  else if s0 = 240 then some (4, 144, 191)
  else if 241 ≤ s0 ∧ s0 ≤ 243 then some (4, 128, 191)
  else if s0 = 244 then some (4, 128, 143)
  else none

/-- The function `utf8.DecodeRuneInString`: the first rune of a byte string and the number of
bytes it takes; `(RuneError, 1)` when the string does not start with valid UTF-8. The masks
and shifts of the source are written as remainders and products. -/
def DecodeRuneInString (s : List Nat) : Nat × Nat :=
  match s with
  | [] => (RuneError, 0)
  | s0 :: rest =>
    if s0 < 128 then (s0, 1)
    else
      match first s0 with
      | none => (RuneError, 1)
      | some (sz, lo, hi) =>
        if s.length < sz then (RuneError, 1)
        else
          match rest with
          | [] => (RuneError, 1)
          | s1 :: rest1 =>
            if s1 < lo ∨ hi < s1 then (RuneError, 1)
            else if sz ≤ 2 then (s0 % 32 * 64 + s1 % 64, 2)
            else
              match rest1 with
              | [] => (RuneError, 1)
              | s2 :: rest2 =>
                if s2 < 128 ∨ 191 < s2 then (RuneError, 1)
                else if sz ≤ 3 then (s0 % 16 * 4096 + s1 % 64 * 64 + s2 % 64, 3)
                else
                  match rest2 with
                  | [] => (RuneError, 1)
                  | s3 :: _ =>
                    if s3 < 128 ∨ 191 < s3 then (RuneError, 1)
                    else (s0 % 8 * 262144 + s1 % 64 * 4096 + s2 % 64 * 64 + s3 % 64, 4)

/-- The loop of `appendString` over the bytes of a string: a byte below 128 is written as
`escapeChar` says; otherwise the rune at this place is decoded, and an invalid byte becomes the
escape of U+FFFD, the line and paragraph separators their escapes, any other rune itself.
Every round consumes input, `fuel` bounds the number of rounds. -/
def appendRunes : Nat → List Nat → List Char
  | 0, _ => []
  | _ + 1, [] => []
  | fuel + 1, b :: rest =>
    if b < 128 then escapeChar (Char.ofNat b) ++ appendRunes fuel rest
    else
      let decoded := DecodeRuneInString (b :: rest)
      if decoded.1 = RuneError ∧ decoded.2 = 1 then
        [bslash, 'u', 'f', 'f', 'f', 'd'] ++ appendRunes fuel rest
      else if decoded.1 = 8232 ∨ decoded.1 = 8233 then
        [bslash, 'u', '2', '0', '2', hexChar (decoded.1 % 16)]
          ++ appendRunes fuel ((b :: rest).drop decoded.2)
      else Char.ofNat decoded.1 :: appendRunes fuel ((b :: rest).drop decoded.2)

/-- The quoted form of a byte string: `appendString` on any Go string. -/
def appendStringGo (src : List Nat) : List Char :=
  dquote :: (appendRunes src.length src ++ [dquote])

/-- The body `Encode(&dnsPatch)` writes when the string fields are arbitrary byte strings. -/
def EncodeGo (p : GoPatch) : String :=
  String.mk (lbrace :: (appendString ['t', 'y', 'p', 'e'] ++ ':' :: appendStringGo p.RecType
    ++ ',' :: appendString ['n', 'a', 'm', 'e'] ++ ':' :: appendStringGo p.Name
    ++ ',' :: appendString ['c', 'o', 'n', 't', 'e', 'n', 't'] ++ ':' :: appendStringGo p.Content
    ++ ',' :: appendString ['t', 't', 'l'] ++ ':' :: appendInt p.TTL
    ++ ',' :: appendString ['p', 'r', 'o', 'x', 'i', 'e', 'd'] ++ ':' :: appendBool p.Proxied
    ++ [rbrace, Char.ofNat 10]))

end Json

/-- The bytes of the Go string that holds the text `s`: its UTF-8 encoding. -/
def goBytes (s : String) : List Nat := s.data.flatMap Json.encodeRune

/-- The struct `dnsPatch` as Go holds it. -/
def DNSPatch.toGo (p : DNSPatch) : GoPatch :=
  { RecType := goBytes p.RecType, Name := goBytes p.Name, Content := goBytes p.Content,
    TTL := p.TTL, Proxied := p.Proxied }

/-! ## The outside world

The provider behind the HTTP transport and the DNS resolver are separate services; each has a
state of its own (`σ` and `ρ`), changed only by the calls addressed to it. `context.Background()`
is never cancelled and is left out. -/

/-- A response body `resp.Body`: the program only ever decodes it, into the struct of
`readCurrentDNSRecord` or into the struct of `handleResponse`, so a body is given by the
outcomes of those two decodings. -/
structure ResponseBody where
  read : Except GoError ReadResponse
  write : Except GoError WriteResponse

/-- An `*http.Request` as it is handed to `client.Do`: method, the URL string it was created
with (fragment and query included, as `req.URL.String()` shows them), header and body. Which
part of the URL the request is addressed to is told by `urlLocation`. -/
structure Request where
  method : String
  url : String
  header : List (String × String)
  body : Option String
deriving DecidableEq, Repr

/-- What the program does that can be observed from outside, together with markers for the
invocations of its own client and resolver functions. -/
inductive Event where
  | CurrentDNSRecord (recordType name : String)
  | UpdateDNSRecord (identifier recordType name content : String) (ttl : Int)
  | publicIpv4
  | publicIpv6
  | Do (client : HttpClient) (req : Request)
  | LookupIP (network host dialNetwork dialAddress : String) (timeoutMillis : Int)
  | Printf (line : String)
  | Fatal (line : String)
deriving DecidableEq, Repr

/-- The library calls the program relies on.
* `parseURL` is the failure of `http.NewRequestWithContext` (`none`: the URL is accepted);
* `roundTrip` is `client.Do`: the response body or a transport error, and the provider's new state;
* `lookupIP` is `resolver.LookupIP(ctx, network, host)` on a resolver that dials the given
  network and address with the given timeout in milliseconds: the addresses in their `String()`
  form, of which there is at least one when the call succeeds. -/
structure Runtime (σ ρ : Type) where
  parseURL : String → Option GoError
  roundTrip : HttpClient → Request → σ → Except GoError ResponseBody × σ
  lookupIP : String → String → String → String → Int → ρ →
    Except GoError (String × List String) × ρ

/-- The states of the two services. -/
structure World (σ ρ : Type) where
  provider : σ
  resolver : ρ

/-- The outcome of running an operation: what it returns, the states it leaves, and the events
it caused, in order. -/
structure Step (σ ρ α : Type) where
  result : α
  world : World σ ρ
  events : List Event

/-! ## The client's requests (`cf.go`) -/

/-- The method `Header.Set`: replace whatever the key held. -/
def headerSet (h : List (String × String)) (key value : String) : List (String × String) :=
  h.filter (fun kv => kv.1 ≠ key) ++ [(key, value)]

/-- The method `setHeaders`. -/
def setHeaders (cd : CloudflareDNS) (req : Request) : Request :=
  let header := headerSet req.header "Authorization" ("Bearer " ++ cd.apiToken)
  { req with header := headerSet header "Content-Type" "application/json" }

/-- What `net/url.Parse` keeps of a URL string as scheme, authority and path, as written:
`Parse` first sets aside as fragment what follows the first `#`, then as query what follows the
first `?` of the rest, so this is the string up to the first `#` or `?`. The result is `none`
when that part holds a `%`: the path a request is sent to is then the outcome of percent
decoding, which is not modelled. -/
def urlLocation (url : String) : Option String :=
  let kept := url.data.takeWhile (fun c => c ≠ '#' ∧ c ≠ '?')
  if '%' ∈ kept then none else some (String.mk kept)

/-- The call `http.NewRequestWithContext(ctx, method, url, body)`. The request keeps the URL
string it was created with; `urlLocation` tells which part of it the request is addressed
to. -/
def NewRequestWithContext {σ ρ : Type} (rt : Runtime σ ρ) (method url : String)
    (body : Option String) : Except GoError Request :=
  match rt.parseURL url with
  | some err => .error err
  | none => .ok { method := method, url := url, header := [], body := body }

/-- The method `CurrentDNSRecord`. -/
def CurrentDNSRecord {σ ρ : Type} (rt : Runtime σ ρ) (cd : CloudflareDNS)
    (recordType name : String) (w : World σ ρ) : Step σ ρ (Except GoError CloudflareDNSRecord) :=
  let url := cd.baseURL ++ "/zones/" ++ cd.zoneID ++ "/dns_records?page=1&per_page=100&type="
    ++ recordType ++ "&name=" ++ name
  match NewRequestWithContext rt "GET" url none with
  | .error err =>
    ⟨.error ("failed to create request: " ++ err), w, [Event.CurrentDNSRecord recordType name]⟩
  | .ok req =>
    let req := setHeaders cd req
    let sent := rt.roundTrip cd.client req w.provider
    let events := [Event.CurrentDNSRecord recordType name, Event.Do cd.client req]
    match sent.1 with
    | .error err =>
      ⟨.error ("failed to send request: " ++ err), { w with provider := sent.2 }, events⟩
    | .ok body =>
      ⟨readCurrentDNSRecord body.read, { w with provider := sent.2 }, events⟩

/-- The struct literal `dnsPatch` built by `UpdateDNSRecord`. -/
def dnsPatch (recordType name content : String) (ttl : Int) : DNSPatch :=
  { RecType := recordType, Name := name, Content := content, TTL := ttl, Proxied := false }

/-- The method `UpdateDNSRecord`, for arguments that hold valid UTF-8. Encoding a struct of
strings, an int and a bool cannot fail, so the first error branch of the source is never
taken. The body is `Json.Encode` of the struct, which is `Json.EncodeGo` of the struct as Go
holds it. -/
def UpdateDNSRecord {σ ρ : Type} (rt : Runtime σ ρ) (cd : CloudflareDNS)
    (identifier recordType name content : String) (ttl : Int) (w : World σ ρ) :
    Step σ ρ (Option GoError) :=
  let buf := Json.Encode (dnsPatch recordType name content ttl)
  let url := cd.baseURL ++ "/zones/" ++ cd.zoneID ++ "/dns_records/" ++ identifier
  let marker := Event.UpdateDNSRecord identifier recordType name content ttl
  match NewRequestWithContext rt "PATCH" url (some buf) with
  | .error err => ⟨some ("failed to create request: " ++ err), w, [marker]⟩
  | .ok req =>
    let req := setHeaders cd req
    let sent := rt.roundTrip cd.client req w.provider
    match sent.1 with
    | .error err =>
      ⟨some ("failed to send request: " ++ err), { w with provider := sent.2 },
        [marker, Event.Do cd.client req]⟩
    | .ok body =>
      ⟨handleResponse body.write, { w with provider := sent.2 },
        [marker, Event.Do cd.client req]⟩

/-! ## The public address (`ip.go`) -/

/-- The function `publicIpv4`: `names[0].String()` of a lookup over `udp4`. -/
def publicIpv4 {σ ρ : Type} (rt : Runtime σ ρ) (timeoutMillis : Int) (w : World σ ρ) :
    Step σ ρ (Except GoError String) :=
  let looked := rt.lookupIP "ip4" "myip.opendns.com" "udp4" "resolver1.opendns.com:53"
    timeoutMillis w.resolver
  let events := [Event.publicIpv4,
    Event.LookupIP "ip4" "myip.opendns.com" "udp4" "resolver1.opendns.com:53" timeoutMillis]
  match looked.1 with
  | .error err => ⟨.error err, { w with resolver := looked.2 }, events⟩
  | .ok names => ⟨.ok names.1, { w with resolver := looked.2 }, events⟩

/-- The function `publicIpv6`: `names[0].String()` of a lookup over `udp6`. -/
def publicIpv6 {σ ρ : Type} (rt : Runtime σ ρ) (timeoutMillis : Int) (w : World σ ρ) :
    Step σ ρ (Except GoError String) :=
  let looked := rt.lookupIP "ip6" "myip.opendns.com" "udp6" "resolver1.opendns.com:53"
    timeoutMillis w.resolver
  let events := [Event.publicIpv6,
    Event.LookupIP "ip6" "myip.opendns.com" "udp6" "resolver1.opendns.com:53" timeoutMillis]
  match looked.1 with
  | .error err => ⟨.error err, { w with resolver := looked.2 }, events⟩
  | .ok names => ⟨.ok names.1, { w with resolver := looked.2 }, events⟩

/-! ## The driver (`main.go`) -/

/-- The `switch recordType` of `updateDNSRecord`: the resolver for `A` and for `AAAA`; any other
type runs no resolver and leaves `newIp` at its zero value. -/
def resolveNewIp {σ ρ : Type} (rt : Runtime σ ρ) (timeoutMillis : Int) (recordType : String)
    (w : World σ ρ) : Step σ ρ (Except GoError String) :=
  if recordType = "A" then publicIpv4 rt timeoutMillis w
  else if recordType = "AAAA" then publicIpv6 rt timeoutMillis w
  else ⟨.ok "", w, []⟩

/-- The function `updateDNSRecord`; `dnsTtl` and `timeoutMillis` are the values of the flags. -/
def updateDNSRecord {σ ρ : Type} (rt : Runtime σ ρ) (dnsTtl timeoutMillis : Int)
    (cfdns : CloudflareDNS) (recordType domainName : String) (w : World σ ρ) :
    Step σ ρ (Option GoError) :=
  let fetched := CurrentDNSRecord rt cfdns recordType domainName w
  match fetched.result with
  | .error err => ⟨some err, fetched.world, fetched.events⟩
  | .ok dnsRecord =>
    let resolved := resolveNewIp rt timeoutMillis recordType fetched.world
    match resolved.result with
    | .error err => ⟨some err, resolved.world, fetched.events ++ resolved.events⟩
    | .ok newIp =>
      if dnsRecord.Content ≠ newIp then
        let differs := Event.Printf ("DNS " ++ dnsRecord.Name ++ " " ++ dnsRecord.RecordType
          ++ " record content (" ++ dnsRecord.Content ++ ") differs from host (" ++ newIp
          ++ "). Updating...\n")
        let updated := UpdateDNSRecord rt cfdns dnsRecord.Identifier dnsRecord.RecordType
          dnsRecord.Name newIp dnsTtl resolved.world
        match updated.result with
        | some err =>
          ⟨some err, updated.world,
            fetched.events ++ resolved.events ++ [differs] ++ updated.events⟩
        | none =>
          ⟨none, updated.world,
            fetched.events ++ resolved.events ++ [differs] ++ updated.events
              ++ [Event.Printf ("Updated " ++ dnsRecord.RecordType ++ " record of "
                ++ dnsRecord.Name ++ " to " ++ newIp ++ "\n")]⟩
      else ⟨none, resolved.world, fetched.events ++ resolved.events⟩

/-- How the process ends: by returning from `main`, or by `log.Fatal` (exit status 1). -/
inductive ExitStatus where
  | returned
  | fatal
deriving DecidableEq, Repr

/-- The `if err := ...; err != nil` around each reconciliation in `main`: a returned error is
logged behind the given text, `nil` logs nothing. -/
def reportError (text : String) (err : Option GoError) : List Event :=
  match err with
  | some e => [Event.Printf (text ++ e ++ "\n")]
  | none => []

/-- The function `main`; `domainFlag`, `dnsTtl` and `timeoutMillis` are the parsed flags and
`environ` is the process environment (`os.LookupEnv`). -/
def main {σ ρ : Type} (rt : Runtime σ ρ) (environ : String → Option String)
    (domainFlag : String) (dnsTtl timeoutMillis : Int) (w : World σ ρ) : Step σ ρ ExitStatus :=
  let domainName : Option String :=
    if domainFlag = "" then environ "DOMAIN_NAME" else some domainFlag
  match domainName with
  | none =>
    ⟨.fatal, w, [Event.Fatal ("Missing domain name, which can be set with the -domain flag or "
      ++ "the DOMAIN_NAME environment variable")]⟩
  | some domainName =>
    match NewCloudflareDNS environ (some {}) with
    | .error err => ⟨.fatal, w, [Event.Fatal err]⟩
    | .ok cfdns =>
      let first := updateDNSRecord rt dnsTtl timeoutMillis cfdns "A" domainName w
      let second := updateDNSRecord rt dnsTtl timeoutMillis cfdns "AAAA" domainName first.world
      ⟨.returned, second.world,
        first.events ++ reportError "Error updating A record: " first.result
          ++ second.events ++ reportError "Error updating AAAA record: " second.result⟩

/-- The invocations of `UpdateDNSRecord` among a run's events. -/
def updateCalls (events : List Event) : List Event :=
  events.filter (fun e => match e with
    | Event.UpdateDNSRecord _ _ _ _ _ => true
    | _ => false)

/-- The resolver invocations among a run's events. -/
def resolverCalls (events : List Event) : List Event :=
  events.filter (fun e => match e with
    | Event.publicIpv4 => true
    | Event.publicIpv6 => true
    | Event.LookupIP _ _ _ _ _ => true
    | _ => false)

/-- The `PATCH` requests among a run's events. -/
def patchRequests (events : List Event) : List Request :=
  events.filterMap (fun e => match e with
    | Event.Do _ req => if req.method = "PATCH" then some req else none
    | _ => none)

/-! ## Sample environments -/

/-- The environment of the repository's test "All env vars set". -/
def sampleEnviron (key : String) : Option String :=
  if key = "CF_ZONE_ID" then some "zone123"
  else if key = "CF_ACCOUNT_ID" then some "acc123"
  else if key = "CF_API_TOKEN" then some "token123"
  else none

/-- An environment in which only the API token is missing. -/
def tokenlessEnviron (key : String) : Option String :=
  if key = "CF_ZONE_ID" then some "zone123"
  else if key = "CF_ACCOUNT_ID" then some "acc123"
  else none

/-! ## Provider properties used by the idempotence results -/

/-- The provider reads back what was written: once a fetch for `(recordType, name)` has
returned a record, a successful update of that record makes the next fetch, if it succeeds,
return a record with the written content. -/
def ReadsBackWrites {σ ρ : Type} (rt : Runtime σ ρ) (cd : CloudflareDNS)
    (recordType name : String) : Prop :=
  ∀ (w : World σ ρ) (record : CloudflareDNSRecord) (resolver : ρ) (content : String) (ttl : Int),
    (CurrentDNSRecord rt cd recordType name w).result = .ok record →
    (UpdateDNSRecord rt cd record.Identifier record.RecordType record.Name content ttl
      ⟨(CurrentDNSRecord rt cd recordType name w).world.provider, resolver⟩).result = none →
    ∀ record2,
      (CurrentDNSRecord rt cd recordType name
        (UpdateDNSRecord rt cd record.Identifier record.RecordType record.Name content ttl
          ⟨(CurrentDNSRecord rt cd recordType name w).world.provider, resolver⟩).world).result
        = .ok record2 →
      record2.Content = content

/-- The provider's reads are stable: with no update in between, a fetch that follows a fetch
returns, if it succeeds, a record with the same content. -/
def StableReads {σ ρ : Type} (rt : Runtime σ ρ) (cd : CloudflareDNS)
    (recordType name : String) : Prop :=
  ∀ (w : World σ ρ) (record : CloudflareDNSRecord) (resolver : ρ),
    (CurrentDNSRecord rt cd recordType name w).result = .ok record →
    ∀ record2,
      (CurrentDNSRecord rt cd recordType name
        ⟨(CurrentDNSRecord rt cd recordType name w).world.provider, resolver⟩).result
        = .ok record2 →
      record2.Content = record.Content

/-! ## A stub provider and resolver

The stateful counterpart of the test servers of `cf_test.go`: the zone `zone123` with at most
one `A` record (`record123`) and one `AAAA` record (`record456`) of `example.com`, which can be
told to drop the next requests or to turn down the next `PATCH` requests, and a resolver with
fixed answers. -/

/-- The state of the stub provider: the contents of the two records, where present, the
number of `PATCH` requests still to be turned down, and the number of requests still to be
dropped before they reach the handler. -/
structure StubZone where
  a : Option String
  aaaa : Option String
  rejectPatches : Nat
  dropRequests : Nat
deriving DecidableEq, Repr

/-- The state of the stub resolver: its answers for the two address families. -/
structure StubResolver where
  ip4 : Except GoError (String × List String)
  ip6 : Except GoError (String × List String)

/-- The client of the repository's tests. -/
def stubClient : CloudflareDNS :=
  { zoneID := "zone123", accountID := "acc123", apiToken := "testtoken", client := {},
    baseURL := "https://api.cloudflare.com/client/v4" }

/-- A response with `success` set and the given result list. -/
def stubSuccess (result : List ResultEntry) : ResponseBody :=
  { read := .ok ⟨true, [], [], result⟩, write := .ok ⟨true, [], []⟩ }

/-- A response with `success` unset and one error message. -/
def stubFailure (message : String) : ResponseBody :=
  { read := .ok ⟨false, [⟨message⟩], [], []⟩, write := .ok ⟨false, [⟨message⟩], []⟩ }

/-- The stub provider's handler. -/
def stubHandler (req : Request) (z : StubZone) : Except GoError ResponseBody × StubZone :=
  if req.method = "GET" then
    if req.url = "https://api.cloudflare.com/client/v4/zones/zone123/dns_records?page=1&per_page=100&type=A&name=example.com" then
      (.ok (stubSuccess (z.a.toList.map (fun c => ⟨"record123", "A", "example.com", c⟩))), z)
    else if req.url = "https://api.cloudflare.com/client/v4/zones/zone123/dns_records?page=1&per_page=100&type=AAAA&name=example.com" then
      (.ok (stubSuccess (z.aaaa.toList.map (fun c => ⟨"record456", "AAAA", "example.com", c⟩))), z)
    else (.ok (stubSuccess []), z)
  else if req.method = "PATCH" then
    match z.rejectPatches with
    | n + 1 => (.ok (stubFailure "Rate limited"), { z with rejectPatches := n })
    | 0 =>
      match req.body.bind Json.Decode with
      | none => (.ok (stubFailure "Malformed request body"), z)
      | some patch =>
        if req.url = "https://api.cloudflare.com/client/v4/zones/zone123/dns_records/record123" ∧ z.a.isSome then
          (.ok (stubSuccess []), { z with a := some patch.Content })
        else if req.url = "https://api.cloudflare.com/client/v4/zones/zone123/dns_records/record456"
            ∧ z.aaaa.isSome then
          (.ok (stubSuccess []), { z with aaaa := some patch.Content })
        else (.ok (stubFailure "Record does not exist"), z)
  else (.error "unsupported method", z)

/-- The stub transport: drops the request while `dropRequests` is positive, else hands it to
the handler. -/
def stubRoundTrip (_client : HttpClient) (req : Request) (z : StubZone) :
    Except GoError ResponseBody × StubZone :=
  match z.dropRequests with
  | n + 1 => (.error "connection refused", { z with dropRequests := n })
  | 0 => stubHandler req z

/-- The stub runtime: every URL is accepted, requests go to `stubRoundTrip`, lookups return
the resolver's fixed answers. -/
def stubRuntime : Runtime StubZone StubResolver :=
  { parseURL := fun _ => none
    roundTrip := stubRoundTrip
    lookupIP := fun network _ _ _ _ r => (if network = "ip4" then r.ip4 else r.ip6, r) }

/-- A resolver that answers for both families. -/
def stubResolver : StubResolver :=
  { ip4 := .ok ("192.0.2.2", []), ip6 := .ok ("2001:db8::2", []) }

/-- A resolver whose IPv4 lookup times out. -/
def deafResolver : StubResolver :=
  { ip4 := .error "lookup myip.opendns.com: i/o timeout", ip6 := .ok ("2001:db8::2", []) }

/-- The scenario of the repository's tests: the `A` record holds `192.0.2.1`, the host's
address is `192.0.2.2`. -/
def driftedWorld : World StubZone StubResolver :=
  { provider :=
      { a := some "192.0.2.1", aaaa := some "2001:db8::1", rejectPatches := 0, dropRequests := 0 },
    resolver := stubResolver }

/-- Both records already hold the host's addresses. -/
def settledWorld : World StubZone StubResolver :=
  { provider :=
      { a := some "192.0.2.2", aaaa := some "2001:db8::2", rejectPatches := 0, dropRequests := 0 },
    resolver := stubResolver }

/-- The zone has no `A` record; the `AAAA` record is out of date. -/
def noAWorld : World StubZone StubResolver :=
  { provider :=
      { a := none, aaaa := some "2001:db8::1", rejectPatches := 0, dropRequests := 0 },
    resolver := stubResolver }

/-- The `A` record is out of date and the provider turns down the next `PATCH`. -/
def throttledWorld : World StubZone StubResolver :=
  { provider :=
      { a := some "192.0.2.1", aaaa := some "2001:db8::1", rejectPatches := 1, dropRequests := 0 },
    resolver := stubResolver }

/-- The `A` record is up to date, the `AAAA` record is not, and the next request is dropped. -/
def flakyWorld : World StubZone StubResolver :=
  { provider :=
      { a := some "192.0.2.2", aaaa := some "2001:db8::1", rejectPatches := 0, dropRequests := 1 },
    resolver := stubResolver }

/-- The world `flakyWorld` with the connection back up. -/
def steadyWorld : World StubZone StubResolver :=
  { provider :=
      { a := some "192.0.2.2", aaaa := some "2001:db8::1", rejectPatches := 0, dropRequests := 0 },
    resolver := stubResolver }

/-- The `A` record is out of date and the IPv4 lookup fails. -/
def deafWorld : World StubZone StubResolver :=
  { provider :=
      { a := some "192.0.2.1", aaaa := some "2001:db8::1", rejectPatches := 0, dropRequests := 0 },
    resolver := deafResolver }

/-- The process environment of a configured run on `example.com`. -/
def stubEnviron (key : String) : Option String :=
  if key = "CF_ZONE_ID" then some "zone123"
  else if key = "CF_ACCOUNT_ID" then some "acc123"
  else if key = "CF_API_TOKEN" then some "testtoken"
  else if key = "DOMAIN_NAME" then some "example.com"
  else none

/-- The stub provider shared with another writer: `pending`, when present, is an edit of the
`A` record made by someone else, which lands right after the next request. -/
structure SharedZone where
  zone : StubZone
  pending : Option String
deriving DecidableEq, Repr

/-- The transport of the shared provider: answer as the stub does, then let the pending edit
land. -/
def sharedRoundTrip (client : HttpClient) (req : Request) (s : SharedZone) :
    Except GoError ResponseBody × SharedZone :=
  match s.pending with
  | some c =>
    ((stubRoundTrip client req s.zone).1,
      { zone := { (stubRoundTrip client req s.zone).2 with a := some c }, pending := none })
  | none =>
    ((stubRoundTrip client req s.zone).1,
      { zone := (stubRoundTrip client req s.zone).2, pending := none })

/-- The runtime over the shared provider. -/
def sharedRuntime : Runtime SharedZone StubResolver :=
  { parseURL := fun _ => none
    roundTrip := sharedRoundTrip
    lookupIP := fun network _ _ _ _ r => (if network = "ip4" then r.ip4 else r.ip6, r) }

/-- The `A` record holds the host's address, and someone else is about to change it. -/
def contestedWorld : World SharedZone StubResolver :=
  { provider :=
      { zone := { a := some "192.0.2.2", aaaa := some "2001:db8::2", rejectPatches := 0,
                  dropRequests := 0 },
        pending := some "192.0.2.9" },
    resolver := stubResolver }

/-! ## A provider with a record of another type -/

/-- The handler of a provider that holds one `TXT` record (`record789`) of `example.com`; the
state is the record's content. Every `GET` returns the record, a `PATCH` stores the content of
the decoded body. -/
def txtRoundTrip (_client : HttpClient) (req : Request) (content : String) :
    Except GoError ResponseBody × String :=
  if req.method = "GET" then
    (.ok (stubSuccess [⟨"record789", "TXT", "example.com", content⟩]), content)
  else
    match req.body.bind Json.Decode with
    | some patch => (.ok (stubSuccess []), patch.Content)
    | none => (.ok (stubFailure "Malformed request body"), content)

/-- The runtime over the `TXT` provider. -/
def txtRuntime : Runtime String StubResolver :=
  { parseURL := fun _ => none
    roundTrip := txtRoundTrip
    lookupIP := fun network _ _ _ _ r => (if network = "ip4" then r.ip4 else r.ip6, r) }

/-- The `TXT` record holds a policy string. -/
def txtWorld : World String StubResolver :=
  { provider := "v=spf1 -all", resolver := stubResolver }

/-- The `TXT` record is empty. -/
def emptyTxtWorld : World String StubResolver :=
  { provider := "", resolver := stubResolver }

/-! # Theorems -/

/-! ## Reading the provider's answer -/

/-- C1: with the success flag set, `readCurrentDNSRecord` fails with "no matching DNS record
found" on an empty result list and with "found more than one matching record" on a list of two
or more entries; whenever the list does not have exactly one entry no record is returned. -/
theorem readCurrentDNSRecord_zero_or_many (cfr : ReadResponse) (hs : cfr.Success = true) :
    (cfr.Result.length = 0 →
      readCurrentDNSRecord (.ok cfr) = .error "no matching DNS record found") ∧
    (2 ≤ cfr.Result.length →
      readCurrentDNSRecord (.ok cfr) = .error "found more than one matching record") ∧
    (cfr.Result.length ≠ 1 → ∀ record, readCurrentDNSRecord (.ok cfr) ≠ .ok record) := by
  refine ⟨fun h0 => ?_, fun h2 => ?_, fun h1 record => ?_⟩
  · simp [readCurrentDNSRecord, hs, h0]
  · have h0 : cfr.Result.length ≠ 0 := by omega
    have h1 : 1 < cfr.Result.length := by omega
    simp [readCurrentDNSRecord, hs, h0, h1]
  · by_cases h0 : cfr.Result.length = 0
    · simp [readCurrentDNSRecord, hs, h0]
    · have h2 : 1 < cfr.Result.length := by omega
      simp [readCurrentDNSRecord, hs, h0, h2]

/-- Witness for C1: an empty result list and a list of two entries. -/
theorem readCurrentDNSRecord_zero_or_many_witness :
    readCurrentDNSRecord (.ok ⟨true, [], [], []⟩) = .error "no matching DNS record found" ∧
    readCurrentDNSRecord (.ok ⟨true, [], [],
        [⟨"r1", "A", "example.com", "192.0.2.1"⟩, ⟨"r2", "A", "example.com", "192.0.2.7"⟩]⟩)
      = .error "found more than one matching record" :=
  ⟨(readCurrentDNSRecord_zero_or_many ⟨true, [], [], []⟩ rfl).1 rfl,
   (readCurrentDNSRecord_zero_or_many ⟨true, [], [],
      [⟨"r1", "A", "example.com", "192.0.2.1"⟩, ⟨"r2", "A", "example.com", "192.0.2.7"⟩]⟩
      rfl).2.1 (by decide)⟩

/-- C2: with the success flag set and exactly one entry in the result list,
`readCurrentDNSRecord` returns, without error, the record whose `Identifier`, `RecordType`,
`Name` and `Content` are that entry's id, type, name and content. -/
theorem readCurrentDNSRecord_exactly_one (cfr : ReadResponse) (hs : cfr.Success = true)
    (h1 : cfr.Result.length = 1) :
    ∃ entry record, cfr.Result = [entry] ∧ readCurrentDNSRecord (.ok cfr) = .ok record ∧
      record.Identifier = entry.ID ∧ record.RecordType = entry.RecType ∧
      record.Name = entry.Name ∧ record.Content = entry.Content := by
  obtain ⟨entry, hentry⟩ := List.length_eq_one.mp h1
  refine ⟨entry, ⟨entry.ID, entry.Name, entry.RecType, entry.Content⟩, hentry, ?_, rfl, rfl,
    rfl, rfl⟩
  simp [readCurrentDNSRecord, hs, hentry]

/-- Witness for C2: the response of the repository's own test. -/
theorem readCurrentDNSRecord_exactly_one_witness :
    ∃ entry record,
      [(⟨"record123", "A", "example.com", "192.0.2.1"⟩ : ResultEntry)] = [entry] ∧
      readCurrentDNSRecord
        (.ok ⟨true, [], [], [⟨"record123", "A", "example.com", "192.0.2.1"⟩]⟩) = .ok record ∧
      record.Identifier = entry.ID ∧ record.RecordType = entry.RecType ∧
      record.Name = entry.Name ∧ record.Content = entry.Content :=
  readCurrentDNSRecord_exactly_one
    ⟨true, [], [], [⟨"record123", "A", "example.com", "192.0.2.1"⟩]⟩ rfl rfl

/-! ## Unsuccessful responses -/

/-- A substring of the accumulator stays one while a loop appends to it. -/
theorem infix_foldl_of_infix {α : Type} (f : α → String) (part : List Char) :
    ∀ (l : List α) (acc : String), part <:+: acc.data →
      part <:+: (l.foldl (fun acc x => acc ++ f x) acc).data := by
  intro l
  induction l with
  | nil => intro acc h; simpa using h
  | cons x xs ih =>
    intro acc h
    simp only [List.foldl_cons]
    apply ih
    rw [String.data_append]
    exact h.trans (List.infix_append' [] acc.data (f x).data |>.trans (by simp))

/-- A loop that appends one piece per element ends up containing each piece. -/
theorem infix_foldl_of_mem {α : Type} (f : α → String) :
    ∀ (l : List α) (acc : String) (x : α), x ∈ l →
      (f x).data <:+: (l.foldl (fun acc x => acc ++ f x) acc).data := by
  intro l
  induction l with
  | nil => intro acc x hx; simp at hx
  | cons y ys ih =>
    intro acc x hx
    simp only [List.foldl_cons]
    rcases List.mem_cons.mp hx with rfl | hx
    · apply infix_foldl_of_infix
      rw [String.data_append]
      exact List.infix_append' acc.data (f x).data [] |>.trans (by simp)
    · exact ih _ x hx

/-- C3: when the success flag is false, whatever the result list holds, `readCurrentDNSRecord`
and `handleResponse` fail with the same error, the one `formatErrorMessage` builds from the
errors and messages lists; its text contains every error's message and every message; when the
success flag is true `handleResponse` returns no error. -/
theorem unsuccessful_response_error (errors : CloudflareErrors) (messages : List String)
    (result : List ResultEntry) :
    readCurrentDNSRecord (.ok ⟨false, errors, messages, result⟩)
      = .error (formatErrorMessage errors messages) ∧
    handleResponse (.ok ⟨false, errors, messages⟩) = some (formatErrorMessage errors messages) ∧
    (∀ err ∈ errors, TextContains (formatErrorMessage errors messages) err.Message) ∧
    (∀ msg ∈ messages, TextContains (formatErrorMessage errors messages) msg) ∧
    handleResponse (.ok ⟨true, errors, messages⟩) = none := by
  refine ⟨by simp [readCurrentDNSRecord], by simp [handleResponse], ?_, ?_,
    by simp [handleResponse]⟩
  · intro err herr
    have h1 : err.Message.data <:+: ("Error: " ++ err.Message ++ "\n").data := by
      simp only [String.data_append]
      exact List.infix_append _ _ _
    have h2 := infix_foldl_of_mem (fun e : CloudflareError => "Error: " ++ e.Message ++ "\n")
      errors "" err herr
    have h3 := infix_foldl_of_infix (fun m : String => "Message: " ++ m ++ "\n") _ messages _
      (h1.trans h2)
    show _ <:+: (_ ++ _ : String).data
    rw [String.data_append]
    exact h3.trans (List.suffix_append _ _).isInfix
  · intro msg hmsg
    have h1 : msg.data <:+: ("Message: " ++ msg ++ "\n").data := by
      simp only [String.data_append]
      exact List.infix_append _ _ _
    have h2 := infix_foldl_of_mem (fun m : String => "Message: " ++ m ++ "\n") messages
      (errors.foldl (fun acc e => acc ++ ("Error: " ++ e.Message ++ "\n")) "") msg hmsg
    show _ <:+: (_ ++ _ : String).data
    rw [String.data_append]
    exact (h1.trans h2).trans (List.suffix_append _ _).isInfix

/-- Witness for C3: a rejected token with one error and one message. -/
theorem unsuccessful_response_error_witness :
    readCurrentDNSRecord (.ok ⟨false, [⟨"Invalid API Token"⟩], ["retry later"],
        [⟨"record123", "A", "example.com", "192.0.2.1"⟩]⟩)
      = .error "unsuccessful API call: Error: Invalid API Token\nMessage: retry later\n" ∧
    handleResponse (.ok ⟨false, [⟨"Invalid API Token"⟩], ["retry later"]⟩)
      = some "unsuccessful API call: Error: Invalid API Token\nMessage: retry later\n" ∧
    TextContains (formatErrorMessage [⟨"Invalid API Token"⟩] ["retry later"])
      "Invalid API Token" ∧
    TextContains (formatErrorMessage [⟨"Invalid API Token"⟩] ["retry later"]) "retry later" :=
  have h := unsuccessful_response_error [⟨"Invalid API Token"⟩] ["retry later"]
    [⟨"record123", "A", "example.com", "192.0.2.1"⟩]
  ⟨h.1.trans (congrArg Except.error (by decide)), h.2.1.trans (by decide),
    h.2.2.1 ⟨"Invalid API Token"⟩ (by simp), h.2.2.2.1 "retry later" (by simp)⟩

/-! ## Construction -/

/-- C4: `NewCloudflareDNS` fails, returning an error and no client, whenever the zone
identifier, the account identifier or the API token is empty; when all three are non-empty it
returns a client that carries exactly those three values. -/
theorem NewCloudflareDNS_requires_credentials (environ : String → Option String)
    (client : Option HttpClient) :
    ((Getenv environ "CF_ZONE_ID" = "" ∨ Getenv environ "CF_ACCOUNT_ID" = "" ∨
        Getenv environ "CF_API_TOKEN" = "") →
      NewCloudflareDNS environ client = .error "missing required environment variables") ∧
    ((Getenv environ "CF_ZONE_ID" ≠ "" ∧ Getenv environ "CF_ACCOUNT_ID" ≠ "" ∧
        Getenv environ "CF_API_TOKEN" ≠ "") →
      ∃ cd, NewCloudflareDNS environ client = .ok cd ∧
        cd.zoneID = Getenv environ "CF_ZONE_ID" ∧
        cd.accountID = Getenv environ "CF_ACCOUNT_ID" ∧
        cd.apiToken = Getenv environ "CF_API_TOKEN") := by
  constructor
  · intro h
    simp only [NewCloudflareDNS]
    rw [if_pos h]
  · rintro ⟨hz, ha, ht⟩
    have h : ¬ (Getenv environ "CF_ZONE_ID" = "" ∨ Getenv environ "CF_ACCOUNT_ID" = "" ∨
        Getenv environ "CF_API_TOKEN" = "") := by
      rintro (h | h | h)
      · exact hz h
      · exact ha h
      · exact ht h
    simp only [NewCloudflareDNS]
    rw [if_neg h]
    exact ⟨_, rfl, rfl, rfl, rfl⟩

/-- Witness for C4: the API token missing, and all three values present. -/
theorem NewCloudflareDNS_requires_credentials_witness :
    NewCloudflareDNS tokenlessEnviron none = .error "missing required environment variables" ∧
    ∃ cd, NewCloudflareDNS sampleEnviron none = .ok cd ∧
      cd.zoneID = Getenv sampleEnviron "CF_ZONE_ID" ∧
      cd.accountID = Getenv sampleEnviron "CF_ACCOUNT_ID" ∧
      cd.apiToken = Getenv sampleEnviron "CF_API_TOKEN" :=
  ⟨(NewCloudflareDNS_requires_credentials tokenlessEnviron none).1
      (Or.inr (Or.inr (by decide))),
   (NewCloudflareDNS_requires_credentials sampleEnviron none).2
      ⟨by decide, by decide, by decide⟩⟩

/-! ## The JSON wire form: decoding undoes encoding -/

namespace Json

theorem hexVal_hexChar (n : Nat) (h : n < 16) : hexVal (hexChar n) = some n := by
  interval_cases n <;> decide

theorem escapeChar_ne_nil (c : Char) : escapeChar c ≠ [] := by
  unfold escapeChar
  split_ifs <;> simp

theorem getu4_low (n : Nat) (h : n < 256) :
    getu4 '0' '0' (hexChar (n / 16)) (hexChar (n % 16)) = some n := by
  have h0 : hexVal '0' = some 0 := by decide
  have h1 := hexVal_hexChar (n / 16) (by omega)
  have h2 := hexVal_hexChar (n % 16) (by omega)
  simp only [getu4, h0, h1, h2]
  congr 1
  omega

theorem getu4_separator (n : Nat) (h : n = 8232 ∨ n = 8233) :
    getu4 '2' '0' '2' (hexChar (n % 16)) = some n := by
  rcases h with rfl | rfl <;> decide

theorem unquoteAux_escapeChar (c : Char) (fuel : Nat) (tail acc : List Char) :
    unquoteAux (fuel + 1) (escapeChar c ++ tail) acc = unquoteAux fuel tail (acc ++ [c]) := by
  unfold escapeChar
  simp only [dquote, bslash]
  split_ifs with h1 h2 h3 h4 h5 h6 h7 h8
  · rcases h1 with rfl | rfl <;> simp [unquoteAux, dquote, bslash]
  · have hc : c = Char.ofNat 8 := by rw [← h2, Char.ofNat_toNat]
    subst hc
    simp [unquoteAux, dquote, bslash]
  · have hc : c = Char.ofNat 12 := by rw [← h3, Char.ofNat_toNat]
    subst hc
    simp [unquoteAux, dquote, bslash]
  · have hc : c = Char.ofNat 10 := by rw [← h4, Char.ofNat_toNat]
    subst hc
    simp [unquoteAux, dquote, bslash]
  · have hc : c = Char.ofNat 13 := by rw [← h5, Char.ofNat_toNat]
    subst hc
    simp [unquoteAux, dquote, bslash]
  · have hc : c = Char.ofNat 9 := by rw [← h6, Char.ofNat_toNat]
    subst hc
    simp [unquoteAux, dquote, bslash]
  · have hlt : c.toNat < 256 := by
      rcases h7 with h | rfl | rfl | rfl
      · omega
      all_goals decide
    have hs : isSurrogate c.toNat = false := by
      simp [isSurrogate]; omega
    simp [unquoteAux, dquote, bslash, getu4_low _ hlt, hs]
  · have hs : isSurrogate c.toNat = false := by
      simp [isSurrogate]; omega
    simp [unquoteAux, dquote, bslash, getu4_separator _ h8, hs]
  · have ha : c ≠ Char.ofNat 34 := fun h => h1 (Or.inr h)
    have hb : c ≠ Char.ofNat 92 := fun h => h1 (Or.inl h)
    have hc : ¬ c.toNat < 32 := fun h => h7 (Or.inl h)
    simp [unquoteAux, dquote, bslash, ha, hb, hc]

theorem length_le_flatMap_escapeChar (s : List Char) :
    s.length ≤ (s.flatMap escapeChar).length := by
  induction s with
  | nil => simp
  | cons c s ih =>
    have h := List.length_pos.mpr (escapeChar_ne_nil c)
    simp only [List.flatMap_cons, List.length_append, List.length_cons]
    omega

theorem unquoteAux_flatMap : ∀ (s : List Char) (fuel : Nat) (acc rest : List Char),
    s.length < fuel →
      unquoteAux fuel (s.flatMap escapeChar ++ dquote :: rest) acc = some (acc ++ s, rest) := by
  intro s
  induction s with
  | nil =>
    intro fuel acc rest h
    obtain ⟨k, rfl⟩ : ∃ k, fuel = k + 1 := ⟨fuel - 1, by simp at h; omega⟩
    simp [unquoteAux]
  | cons c s ih =>
    intro fuel acc rest h
    obtain ⟨k, rfl⟩ : ∃ k, fuel = k + 1 := ⟨fuel - 1, by simp at h; omega⟩
    simp only [List.flatMap_cons, List.append_assoc]
    rw [unquoteAux_escapeChar, ih k _ _ (by simpa using h)]
    simp

theorem unquote_appendString (s rest : List Char) :
    unquote (s.flatMap escapeChar ++ dquote :: rest) = some (s, rest) := by
  unfold unquote
  rw [unquoteAux_flatMap]
  · simp
  · have := length_le_flatMap_escapeChar s
    simp only [List.length_append, List.length_cons]
    omega

theorem isDigit_digit (d : Nat) (h : d < 10) : isDigit (Char.ofNat (48 + d)) = true := by
  interval_cases d <;> decide

theorem toNat_digit (d : Nat) (h : d < 10) : (Char.ofNat (48 + d)).toNat - 48 = d := by
  interval_cases d <;> decide

theorem digit_ne_minus (d : Nat) (h : d < 10) : Char.ofNat (48 + d) ≠ '-' := by
  interval_cases d <;> decide

theorem digit_ne_zero (d : Nat) (h : d < 10) (h1 : 1 ≤ d) : Char.ofNat (48 + d) ≠ '0' := by
  interval_cases d <;> decide

theorem digit_not_space (d : Nat) (h : d < 10) : isSpace (Char.ofNat (48 + d)) = false := by
  interval_cases d <;> decide

theorem formatBits_append : ∀ (fuel u : Nat) (a rest : List Char),
    formatBits fuel u a ++ rest = formatBits fuel u (a ++ rest) := by
  intro fuel
  induction fuel with
  | zero => intro u a rest; rfl
  | succ k ih =>
    intro u a rest
    simp only [formatBits]
    split_ifs
    · rfl
    · rw [ih]; rfl

theorem scanDigits_formatBits : ∀ (fuel u : Nat) (a : List Char), u < fuel →
    ∃ k, ∀ acc, scanDigits acc (formatBits fuel u a) = scanDigits (acc * 10 ^ k + u) a := by
  intro fuel
  induction fuel with
  | zero => intro u a h; omega
  | succ f ih =>
    intro u a h
    simp only [formatBits]
    split_ifs with hu
    · refine ⟨1, fun acc => ?_⟩
      simp [scanDigits, isDigit_digit u hu, toNat_digit u hu]
    · obtain ⟨k, hk⟩ := ih (u / 10) (Char.ofNat (48 + u % 10) :: a) (by omega)
      refine ⟨k + 1, fun acc => ?_⟩
      rw [hk]
      simp only [scanDigits, isDigit_digit (u % 10) (by omega), toNat_digit (u % 10) (by omega),
        if_true]
      congr 1
      rw [pow_succ]
      have := Nat.div_add_mod u 10
      nlinarith

theorem formatBits_head : ∀ (fuel u : Nat) (a : List Char), u < fuel →
    ∃ d tl, d < 10 ∧ (1 ≤ u → 1 ≤ d) ∧ formatBits fuel u a = Char.ofNat (48 + d) :: tl := by
  intro fuel
  induction fuel with
  | zero => intro u a h; omega
  | succ f ih =>
    intro u a h
    simp only [formatBits]
    split_ifs with hu
    · exact ⟨u, a, hu, fun h1 => h1, rfl⟩
    · obtain ⟨d, tl, hd, h1, heq⟩ := ih (u / 10) (Char.ofNat (48 + u % 10) :: a) (by omega)
      exact ⟨d, tl, hd, fun _ => h1 (by omega), heq⟩

theorem scanDigits_stop (acc : Nat) (rest : List Char) (h : endsNumber rest = true) :
    scanDigits acc rest = (acc, rest) := by
  cases rest with
  | nil => rfl
  | cons c tl =>
    have hc : isDigit c = false := by
      simp only [endsNumber, Bool.not_eq_true', Bool.or_eq_false_iff] at h
      exact h.1.1.1
    simp [scanDigits, hc]

theorem parseNat_natDigits (n : Nat) (rest : List Char) (h : endsNumber rest = true) :
    parseNat (natDigits n ++ rest) = some (n, rest) := by
  unfold natDigits
  rw [formatBits_append, List.nil_append]
  rcases Nat.eq_zero_or_pos n with rfl | hpos
  · simp [formatBits, parseNat]
  · obtain ⟨d, tl, hd, h1, heq⟩ := formatBits_head (n + 1) n rest (by omega)
    obtain ⟨k, hk⟩ := scanDigits_formatBits (n + 1) n rest (by omega)
    have hscan := hk 0
    rw [heq] at hscan ⊢
    simp only [parseNat, digit_ne_zero d hd (h1 hpos), isDigit_digit d hd, if_false, if_true]
    rw [hscan, scanDigits_stop _ _ h]
    simp

theorem parseInt_appendInt (i : Int) (rest : List Char) (h : endsNumber rest = true) :
    parseInt (appendInt i ++ rest) = some (i, rest) := by
  unfold appendInt
  split_ifs with hneg
  · simp only [List.cons_append, parseInt, if_true, parseNat_natDigits _ _ h, h]
    simp only [Option.some.injEq, Prod.mk.injEq, and_true]
    omega
  · obtain ⟨d, tl, hd, -, heq⟩ := formatBits_head (i.natAbs + 1) i.natAbs [] (by omega)
    have hp := parseNat_natDigits i.natAbs rest h
    unfold natDigits at hp ⊢
    rw [heq] at hp ⊢
    simp only [List.cons_append, parseInt, digit_ne_minus d hd, if_false] at hp ⊢
    rw [hp]
    simp only [h, if_true, Option.some.injEq, Prod.mk.injEq, and_true]
    omega

theorem skipSpace_cons (c : Char) (rest : List Char) (h : isSpace c = false) :
    skipSpace (c :: rest) = c :: rest := by
  simp [skipSpace, h]

theorem parseValue_appendString (s rest : List Char) :
    parseValue (appendString s ++ rest) = some (Value.str (String.mk s), rest) := by
  simp only [appendString, List.cons_append, List.append_assoc, List.singleton_append, parseValue,
    if_true, unquote_appendString, Option.map_some', List.nil_append]

theorem skipSpace_appendString (s rest : List Char) :
    skipSpace (appendString s ++ rest) = appendString s ++ rest := by
  simp only [appendString, List.cons_append]
  exact skipSpace_cons _ _ (by decide)

theorem appendInt_head (i : Int) :
    ∃ c tl, appendInt i = c :: tl ∧ (c = '-' ∨ ∃ d, d < 10 ∧ c = Char.ofNat (48 + d)) := by
  unfold appendInt
  split_ifs
  · exact ⟨_, _, rfl, Or.inl rfl⟩
  · obtain ⟨d, tl, hd, -, heq⟩ := formatBits_head (i.natAbs + 1) i.natAbs [] (by omega)
    exact ⟨_, tl, heq, Or.inr ⟨d, hd, rfl⟩⟩

theorem digit_not_literal (d : Nat) (h : d < 10) :
    Char.ofNat (48 + d) ≠ dquote ∧ Char.ofNat (48 + d) ≠ 't' ∧ Char.ofNat (48 + d) ≠ 'f' ∧
      Char.ofNat (48 + d) ≠ 'n' := by
  interval_cases d <;> decide

theorem parseValue_appendInt (i : Int) (rest : List Char) (h : endsNumber rest = true) :
    parseValue (appendInt i ++ rest) = some (Value.num i, rest) := by
  have hp := parseInt_appendInt i rest h
  obtain ⟨c, tl, heq, hc⟩ := appendInt_head i
  rw [heq] at hp ⊢
  have hlit : c ≠ dquote ∧ c ≠ 't' ∧ c ≠ 'f' ∧ c ≠ 'n' := by
    rcases hc with rfl | ⟨d, hd, rfl⟩
    · decide
    · exact digit_not_literal d hd
  simp only [List.cons_append] at hp ⊢
  simp only [parseValue, hlit.1, hlit.2.1, hlit.2.2.1, hlit.2.2.2, if_false, hp, Option.map_some']

theorem skipSpace_appendInt (i : Int) (rest : List Char) :
    skipSpace (appendInt i ++ rest) = appendInt i ++ rest := by
  obtain ⟨c, tl, heq, hc⟩ := appendInt_head i
  rw [heq]
  refine skipSpace_cons _ _ ?_
  rcases hc with rfl | ⟨d, hd, rfl⟩
  · decide
  · exact digit_not_space d hd

theorem parseValue_appendBool (b : Bool) (rest : List Char) :
    parseValue (appendBool b ++ rest) = some (Value.bool b, rest) := by
  cases b <;> simp [appendBool, parseValue, dquote]

theorem skipSpace_appendBool (b : Bool) (rest : List Char) :
    skipSpace (appendBool b ++ rest) = appendBool b ++ rest := by
  cases b <;> exact skipSpace_cons _ _ (by decide)

theorem parseMembers_comma (fuel : Nat) (key enc more : List Char) (v : Value)
    (acc : List (String × Value))
    (hskip : skipSpace (enc ++ ',' :: more) = enc ++ ',' :: more)
    (hval : parseValue (enc ++ ',' :: more) = some (v, ',' :: more)) :
    parseMembers (fuel + 1) (appendString key ++ ':' :: (enc ++ ',' :: more)) acc
      = parseMembers fuel more (acc ++ [(String.mk key, v)]) := by
  rw [parseMembers, skipSpace_appendString]
  simp only [appendString, List.cons_append, List.append_assoc, List.singleton_append, if_true,
    unquote_appendString, List.nil_append]
  rw [skipSpace_cons _ _ (by decide)]
  simp only [if_true, hskip, hval]
  rw [skipSpace_cons _ _ (by decide)]
  simp

theorem parseMembers_rbrace (fuel : Nat) (key enc more : List Char) (v : Value)
    (acc : List (String × Value))
    (hskip : skipSpace (enc ++ rbrace :: more) = enc ++ rbrace :: more)
    (hval : parseValue (enc ++ rbrace :: more) = some (v, rbrace :: more)) :
    parseMembers (fuel + 1) (appendString key ++ ':' :: (enc ++ rbrace :: more)) acc
      = some (acc ++ [(String.mk key, v)]) := by
  rw [parseMembers, skipSpace_appendString]
  simp only [appendString, List.cons_append, List.append_assoc, List.singleton_append, if_true,
    unquote_appendString, List.nil_append]
  rw [skipSpace_cons _ _ (by decide)]
  simp only [if_true, hskip, hval]
  rw [skipSpace_cons _ _ (by decide)]
  have : rbrace ≠ ',' := by decide
  simp [this]

theorem endsNumber_comma (more : List Char) : endsNumber (',' :: more) = true := by
  simp [endsNumber]; decide

theorem parseObject_Encode (p : DNSPatch) :
    parseObject (Encode p).data =
      some [("type", Value.str p.RecType), ("name", Value.str p.Name),
        ("content", Value.str p.Content), ("ttl", Value.num p.TTL),
        ("proxied", Value.bool p.Proxied)] := by
  have hlen : ∃ k, (Encode p).data.length = k + 5 := by
    refine ⟨(Encode p).data.length - 5, ?_⟩
    simp only [Encode, appendString, List.length_cons, List.length_append]
    omega
  obtain ⟨k, hk⟩ := hlen
  unfold parseObject
  rw [hk]
  simp only [Encode, List.append_assoc, List.cons_append, List.nil_append]
  rw [skipSpace_cons _ _ (by decide)]
  simp only [if_true]
  rw [skipSpace_appendString]
  have hhead : ∀ (key tail : List Char) (f : Char → List Char → Option (List (String × Value))),
      (match appendString key ++ tail with
        | [] => none
        | d :: rest1 => f d rest1) = f dquote (key.flatMap escapeChar ++ [dquote] ++ tail) :=
    fun _ _ _ => rfl
  rw [hhead]
  have hne : dquote ≠ rbrace := by decide
  simp only [hne, if_false]
  have hcons : ∀ (key tail : List Char),
      dquote :: (key.flatMap escapeChar ++ [dquote] ++ tail) = appendString key ++ tail :=
    fun _ _ => rfl
  rw [hcons]
  rw [parseMembers_comma _ _ _ _ _ _ (skipSpace_appendString _ _) (parseValue_appendString _ _)]
  rw [parseMembers_comma _ _ _ _ _ _ (skipSpace_appendString _ _) (parseValue_appendString _ _)]
  rw [parseMembers_comma _ _ _ _ _ _ (skipSpace_appendString _ _) (parseValue_appendString _ _)]
  rw [parseMembers_comma _ _ _ _ _ _ (skipSpace_appendInt _ _)
    (parseValue_appendInt _ _ (endsNumber_comma _))]
  rw [parseMembers_rbrace _ _ _ _ _ _ (skipSpace_appendBool _ _) (parseValue_appendBool _ _)]
  rfl

theorem assignAll_members (p : DNSPatch) :
    assignAll [("type", Value.str p.RecType), ("name", Value.str p.Name),
        ("content", Value.str p.Content), ("ttl", Value.num p.TTL),
        ("proxied", Value.bool p.Proxied)] ⟨"", "", "", 0, false⟩ = some p := by
  have h1 : foldKey "type" = "type" := by decide
  have h2 : foldKey "name" = "name" := by decide
  have h3 : foldKey "content" = "content" := by decide
  have h4 : foldKey "ttl" = "ttl" := by decide
  have h5 : foldKey "proxied" = "proxied" := by decide
  simp [assignAll, assign, h1, h2, h3, h4, h5]

/-- Decoding the encoded struct gives the struct back. -/
theorem Decode_Encode (p : DNSPatch) : Decode (Encode p) = some p := by
  unfold Decode
  rw [parseObject_Encode]
  exact assignAll_members p

/-! ### The encoder on byte strings agrees with the encoder on text -/

/-- A character is a Unicode scalar value: not a surrogate, at most U+10FFFF. -/
theorem Char_toNat_valid (c : Char) :
    c.toNat < 55296 ∨ (57343 < c.toNat ∧ c.toNat < 1114112) := by
  have h := c.valid
  simpa [UInt32.isValidChar, Nat.isValidChar, Char.toNat] using h

theorem first_three (v : Nat) (h1 : 2048 ≤ v) (h2 : v < 65536)
    (hv : v < 55296 ∨ (57343 < v ∧ v < 1114112)) :
    ∃ lo hi, first (224 + v / 4096) = some (3, lo, hi) ∧ lo ≤ 128 + v / 64 % 64 ∧
      128 + v / 64 % 64 ≤ hi := by
  unfold first
  split_ifs <;> first
    | omega
    | exact ⟨_, _, rfl, by omega, by omega⟩

theorem first_four (v : Nat) (h1 : 65536 ≤ v) (h2 : v < 1114112) :
    ∃ lo hi, first (240 + v / 262144) = some (4, lo, hi) ∧ lo ≤ 128 + v / 4096 % 64 ∧
      128 + v / 4096 % 64 ≤ hi := by
  unfold first
  split_ifs <;> first
    | omega
    | exact ⟨_, _, rfl, by omega, by omega⟩

/-- Decoding reads back an encoded character, and takes exactly its bytes. -/
theorem DecodeRuneInString_encodeRune (c : Char) (tail : List Nat) :
    DecodeRuneInString (encodeRune c ++ tail) = (c.toNat, (encodeRune c).length) := by
  have hv := Char_toNat_valid c
  unfold encodeRune
  split_ifs with h1 h2 h3
  · simp [DecodeRuneInString, h1]
  · have hlead : first (192 + c.toNat / 64) = some (2, 128, 191) := by
      unfold first
      rw [if_pos (by omega)]
    have hn : ¬ (192 + c.toNat / 64 < 128) := by omega
    simp only [DecodeRuneInString, List.cons_append, hn, if_false, hlead, List.length_cons]
    rw [if_neg (by omega), if_neg (by omega), if_pos (by omega)]
    simp only [List.length_singleton, List.length_nil, Prod.mk.injEq, and_true]
    omega
  · obtain ⟨lo, hi, hlead, hlo, hhi⟩ := first_three c.toNat (by omega) h3 hv
    have hn : ¬ (224 + c.toNat / 4096 < 128) := by omega
    simp only [DecodeRuneInString, List.cons_append, hn, if_false, hlead, List.length_cons]
    rw [if_neg (by omega), if_neg (by omega), if_neg (by omega), if_neg (by omega),
      if_pos (by omega)]
    simp only [List.length_singleton, List.length_nil, Prod.mk.injEq, and_true]
    omega
  · obtain ⟨lo, hi, hlead, hlo, hhi⟩ := first_four c.toNat (by omega) (by omega)
    have hn : ¬ (240 + c.toNat / 262144 < 128) := by omega
    simp only [DecodeRuneInString, List.cons_append, hn, if_false, hlead, List.length_cons]
    rw [if_neg (by omega), if_neg (by omega), if_neg (by omega), if_neg (by omega),
      if_neg (by omega), if_neg (by omega)]
    simp only [List.length_singleton, List.length_nil, Prod.mk.injEq, and_true]
    omega

theorem encodeRune_cons (c : Char) :
    ∃ b t, encodeRune c = b :: t ∧ (c.toNat < 128 → b = c.toNat ∧ t = []) ∧
      (128 ≤ c.toNat → 128 ≤ b ∧ 1 ≤ t.length) := by
  unfold encodeRune
  split_ifs with h1 h2 h3
  · exact ⟨_, _, rfl, fun _ => ⟨rfl, rfl⟩, fun h => by omega⟩
  · exact ⟨_, _, rfl, fun h => by omega, fun _ => ⟨by omega, by simp⟩⟩
  · exact ⟨_, _, rfl, fun h => by omega, fun _ => ⟨by omega, by simp⟩⟩
  · exact ⟨_, _, rfl, fun h => by omega, fun _ => ⟨by omega, by simp⟩⟩

theorem ne_ofNat_of_toNat (c : Char) (n : Nat) (h : c.toNat ≠ (Char.ofNat n).toNat) :
    c ≠ Char.ofNat n := by
  rintro rfl
  exact h rfl

theorem escapeChar_of_ge (c : Char) (h : 128 ≤ c.toNat) :
    escapeChar c =
      if c.toNat = 8232 ∨ c.toNat = 8233 then
        [bslash, 'u', '2', '0', '2', hexChar (c.toNat % 16)]
      else [c] := by
  have hb : c ≠ bslash := ne_ofNat_of_toNat c 92 (by
    have : (Char.ofNat 92).toNat = 92 := by decide
    omega)
  have hq : c ≠ dquote := ne_ofNat_of_toNat c 34 (by
    have : (Char.ofNat 34).toNat = 34 := by decide
    omega)
  have hlt : c ≠ '<' := ne_ofNat_of_toNat c 60 (by
    have : (Char.ofNat 60).toNat = 60 := by decide
    omega)
  have hgt : c ≠ '>' := ne_ofNat_of_toNat c 62 (by
    have : (Char.ofNat 62).toNat = 62 := by decide
    omega)
  have ha : c ≠ '&' := ne_ofNat_of_toNat c 38 (by
    have : (Char.ofNat 38).toNat = 38 := by decide
    omega)
  unfold escapeChar
  rw [if_neg (by simp [hb, hq]), if_neg (by omega), if_neg (by omega), if_neg (by omega),
    if_neg (by omega), if_neg (by omega), if_neg (by simp [hlt, hgt, ha]; omega)]

theorem appendRunes_cons (fuel b : Nat) (rest : List Nat) :
    appendRunes (fuel + 1) (b :: rest) =
      if b < 128 then escapeChar (Char.ofNat b) ++ appendRunes fuel rest
      else if (DecodeRuneInString (b :: rest)).1 = RuneError
          ∧ (DecodeRuneInString (b :: rest)).2 = 1 then
        [bslash, 'u', 'f', 'f', 'f', 'd'] ++ appendRunes fuel rest
      else if (DecodeRuneInString (b :: rest)).1 = 8232
          ∨ (DecodeRuneInString (b :: rest)).1 = 8233 then
        [bslash, 'u', '2', '0', '2', hexChar ((DecodeRuneInString (b :: rest)).1 % 16)]
          ++ appendRunes fuel ((b :: rest).drop (DecodeRuneInString (b :: rest)).2)
      else
        Char.ofNat (DecodeRuneInString (b :: rest)).1
          :: appendRunes fuel ((b :: rest).drop (DecodeRuneInString (b :: rest)).2) := rfl

/-- On the bytes of a text the byte-level loop writes what the text-level encoder writes. -/
theorem appendRunes_encodeRune : ∀ (s : List Char) (fuel : Nat),
    (s.flatMap encodeRune).length ≤ fuel →
      appendRunes fuel (s.flatMap encodeRune) = s.flatMap escapeChar := by
  intro s
  induction s with
  | nil => intro fuel _; cases fuel <;> simp [appendRunes]
  | cons c s ih =>
    intro fuel hfuel
    obtain ⟨b, t, hbt, hsmall, hlarge⟩ := encodeRune_cons c
    rw [List.flatMap_cons, List.length_append, hbt, List.length_cons] at hfuel
    obtain ⟨k, rfl⟩ : ∃ k, fuel = k + 1 := ⟨fuel - 1, by omega⟩
    rw [List.flatMap_cons, List.flatMap_cons, hbt, List.cons_append, appendRunes_cons]
    by_cases hc : c.toNat < 128
    · obtain ⟨rfl, rfl⟩ := hsmall hc
      rw [if_pos hc, Char.ofNat_toNat, List.nil_append, ih k (by omega)]
    · obtain ⟨hb, ht⟩ := hlarge (by omega)
      have hd : DecodeRuneInString (b :: (t ++ s.flatMap encodeRune))
          = (c.toNat, (b :: t).length) := by
        rw [← List.cons_append, ← hbt]
        exact DecodeRuneInString_encodeRune c _
      have hdrop : (b :: (t ++ s.flatMap encodeRune)).drop (b :: t).length
          = s.flatMap encodeRune := by
        rw [← List.cons_append]
        exact List.drop_left _ _
      have hlen : ¬ (c.toNat = RuneError ∧ (b :: t).length = 1) := by
        rw [List.length_cons]
        omega
      rw [if_neg (by omega), hd, if_neg hlen, hdrop, ih k (by omega),
        escapeChar_of_ge c (by omega)]
      split_ifs <;> simp [Char.ofNat_toNat]

theorem appendStringGo_goBytes (s : List Char) :
    appendStringGo (s.flatMap encodeRune) = appendString s := by
  unfold appendStringGo appendString
  rw [appendRunes_encodeRune _ _ (le_refl _)]



/-- On a string that holds valid UTF-8 the byte-level encoder writes what the text-level
encoder writes. -/
theorem EncodeGo_toGo (p : DNSPatch) : EncodeGo p.toGo = Encode p := by
  simp only [EncodeGo, Encode, DNSPatch.toGo, goBytes, appendStringGo_goBytes]

end Json

/-! ## The patch request -/

/-- A URL string without `#`, `?` and `%` is, as a whole, the location of its request. -/
theorem urlLocation_of_plain (url : String)
    (h : ∀ c ∈ url.data, c ≠ '#' ∧ c ≠ '?' ∧ c ≠ '%') : urlLocation url = some url := by
  have hkeep : url.data.takeWhile (fun c => decide (c ≠ '#' ∧ c ≠ '?')) = url.data := by
    rw [List.takeWhile_eq_self_iff]
    intro c hc
    simpa using ⟨(h c hc).1, (h c hc).2.1⟩
  have hpercent : '%' ∉ url.data := fun hmem => (h '%' hmem).2.2 rfl
  simp only [urlLocation, hkeep, hpercent, if_false]

/-- C5 as stated fails, in three ways. (a) A content that is not valid UTF-8, here the bytes
`ff fe 61 62`, is not given back by decoding the sent body: each invalid byte arrives as U+FFFD.
(b) For the identifier `rec#123` the request is addressed to `.../dns_records/rec`, the rest
being taken as fragment. (c) For the identifier `rec?x=1` it is addressed to
`.../dns_records/rec` as well, the rest being taken as query. -/
theorem UpdateDNSRecord_patch_payload_fails :
    (Json.Decode
        (Json.EncodeGo ⟨goBytes "A", goBytes "example.com", [255, 254, 97, 98], 120, false⟩)
        = some ⟨"A", "example.com", "\uFFFD\uFFFDab", 120, false⟩ ∧
      goBytes "\uFFFD\uFFFDab" = [239, 191, 189, 239, 191, 189, 97, 98] ∧
      goBytes "\uFFFD\uFFFDab" ≠ [255, 254, 97, 98]) ∧
    ((patchRequests (UpdateDNSRecord stubRuntime stubClient "rec#123" "A" "example.com"
          "192.0.2.2" 120 driftedWorld).events).map (fun req => urlLocation req.url)
        = [some "https://api.cloudflare.com/client/v4/zones/zone123/dns_records/rec"] ∧
      ("https://api.cloudflare.com/client/v4/zones/zone123/dns_records/rec" : String)
        ≠ stubClient.baseURL ++ "/zones/" ++ stubClient.zoneID ++ "/dns_records/"
          ++ "rec#123") ∧
    ((patchRequests (UpdateDNSRecord stubRuntime stubClient "rec?x=1" "A" "example.com"
          "192.0.2.2" 120 driftedWorld).events).map (fun req => urlLocation req.url)
        = [some "https://api.cloudflare.com/client/v4/zones/zone123/dns_records/rec"] ∧
      ("https://api.cloudflare.com/client/v4/zones/zone123/dns_records/rec" : String)
        ≠ stubClient.baseURL ++ "/zones/" ++ stubClient.zoneID ++ "/dns_records/"
          ++ "rec?x=1") := by
  refine ⟨⟨?_, ?_, ?_⟩, ⟨?_, ?_⟩, ⟨?_, ?_⟩⟩ <;> decide

/-- C5, amended: for arguments that hold valid UTF-8, the struct `UpdateDNSRecord` encodes has
type, name, content and ttl equal to the call's arguments and proxied false; the body written
for the arguments as Go holds them is the encoding of that struct, it has the five members with
`proxied` false among them, and decoding it gives back those five values. Every request the
call hands to `client.Do` is a `PATCH` with that body, created for the URL string
`baseURL/zones/{zoneID}/dns_records/{identifier}`; when that string holds no `#`, `?` or `%`
the whole of it is the location the request is addressed to. One such request is sent whenever
the URL is accepted. -/
theorem UpdateDNSRecord_patch_payload {σ ρ : Type} (rt : Runtime σ ρ) (cd : CloudflareDNS)
    (identifier recordType name content : String) (ttl : Int) (w : World σ ρ) :
    dnsPatch recordType name content ttl = ⟨recordType, name, content, ttl, false⟩ ∧
    Json.EncodeGo ⟨goBytes recordType, goBytes name, goBytes content, ttl, false⟩
      = Json.Encode (dnsPatch recordType name content ttl) ∧
    Json.parseObject (Json.Encode (dnsPatch recordType name content ttl)).data
      = some [("type", Json.Value.str recordType), ("name", Json.Value.str name),
          ("content", Json.Value.str content), ("ttl", Json.Value.num ttl),
          ("proxied", Json.Value.bool false)] ∧
    Json.Decode (Json.Encode (dnsPatch recordType name content ttl))
      = some ⟨recordType, name, content, ttl, false⟩ ∧
    (∀ client req,
      Event.Do client req ∈
        (UpdateDNSRecord rt cd identifier recordType name content ttl w).events →
      req.method = "PATCH" ∧
      req.url = cd.baseURL ++ "/zones/" ++ cd.zoneID ++ "/dns_records/" ++ identifier ∧
      req.body = some (Json.Encode (dnsPatch recordType name content ttl)) ∧
      ((∀ c ∈ (cd.baseURL ++ "/zones/" ++ cd.zoneID ++ "/dns_records/" ++ identifier).data,
          c ≠ '#' ∧ c ≠ '?' ∧ c ≠ '%') →
        urlLocation req.url
          = some (cd.baseURL ++ "/zones/" ++ cd.zoneID ++ "/dns_records/" ++ identifier))) ∧
    (rt.parseURL (cd.baseURL ++ "/zones/" ++ cd.zoneID ++ "/dns_records/" ++ identifier) = none →
      patchRequests (UpdateDNSRecord rt cd identifier recordType name content ttl w).events
        = [setHeaders cd ⟨"PATCH",
            cd.baseURL ++ "/zones/" ++ cd.zoneID ++ "/dns_records/" ++ identifier, [],
            some (Json.Encode (dnsPatch recordType name content ttl))⟩]) := by
  refine ⟨rfl, Json.EncodeGo_toGo (dnsPatch recordType name content ttl),
    Json.parseObject_Encode _, Json.Decode_Encode _, ?_, ?_⟩
  · intro client req hmem
    unfold UpdateDNSRecord NewRequestWithContext at hmem
    cases hurl : rt.parseURL (cd.baseURL ++ "/zones/" ++ cd.zoneID ++ "/dns_records/"
        ++ identifier) with
    | some err => simp [hurl] at hmem
    | none =>
      simp only [hurl] at hmem
      split at hmem <;>
        · simp only [List.mem_cons, List.mem_singleton, reduceCtorEq, Event.Do.injEq,
            false_or, List.not_mem_nil, or_false] at hmem
          obtain ⟨-, rfl⟩ := hmem
          exact ⟨rfl, rfl, rfl, fun hplain => urlLocation_of_plain _ hplain⟩
  · intro hurl
    unfold UpdateDNSRecord NewRequestWithContext
    simp only [hurl]
    split <;> simp [patchRequests, setHeaders]

/-- Witness for C5, amended: the call of the repository's test. -/
theorem UpdateDNSRecord_patch_payload_witness :
    patchRequests (UpdateDNSRecord stubRuntime stubClient "record123" "A" "example.com"
        "192.0.2.2" 120 driftedWorld).events
      = [⟨"PATCH", "https://api.cloudflare.com/client/v4/zones/zone123/dns_records/record123",
          [("Authorization", "Bearer testtoken"), ("Content-Type", "application/json")],
          some ("\x7b\"type\":\"A\",\"name\":\"example.com\",\"content\":\"192.0.2.2\","
            ++ "\"ttl\":120,\"proxied\":false\x7d\n")⟩] ∧
    urlLocation "https://api.cloudflare.com/client/v4/zones/zone123/dns_records/record123"
      = some "https://api.cloudflare.com/client/v4/zones/zone123/dns_records/record123" :=
  have h := UpdateDNSRecord_patch_payload stubRuntime stubClient "record123" "A" "example.com"
    "192.0.2.2" 120 driftedWorld
  ⟨(h.2.2.2.2.2 rfl).trans (by decide),
    (h.2.2.2.2.1 {}
      ⟨"PATCH", "https://api.cloudflare.com/client/v4/zones/zone123/dns_records/record123",
        [("Authorization", "Bearer testtoken"), ("Content-Type", "application/json")],
        some (Json.Encode (dnsPatch "A" "example.com" "192.0.2.2" 120))⟩
      (by decide)).2.2.2 (by decide)⟩

/-! ## One reconciliation -/

theorem updateCalls_append (xs ys : List Event) :
    updateCalls (xs ++ ys) = updateCalls xs ++ updateCalls ys := by
  simp [updateCalls]

theorem resolverCalls_append (xs ys : List Event) :
    resolverCalls (xs ++ ys) = resolverCalls xs ++ resolverCalls ys := by
  simp [resolverCalls]

theorem patchRequests_append (xs ys : List Event) :
    patchRequests (xs ++ ys) = patchRequests xs ++ patchRequests ys := by
  simp [patchRequests]

theorem updateCalls_Printf (line : String) (rest : List Event) :
    updateCalls (Event.Printf line :: rest) = updateCalls rest := rfl

theorem updateCalls_nil : updateCalls [] = [] := rfl

theorem patchRequests_Printf (line : String) (rest : List Event) :
    patchRequests (Event.Printf line :: rest) = patchRequests rest := rfl

theorem patchRequests_nil : patchRequests [] = [] := rfl

/-- A fetch invokes neither `UpdateDNSRecord` nor a resolver and sends no `PATCH`. -/
theorem CurrentDNSRecord_quiet {σ ρ : Type} (rt : Runtime σ ρ) (cd : CloudflareDNS)
    (recordType name : String) (w : World σ ρ) :
    updateCalls (CurrentDNSRecord rt cd recordType name w).events = [] ∧
    resolverCalls (CurrentDNSRecord rt cd recordType name w).events = [] ∧
    patchRequests (CurrentDNSRecord rt cd recordType name w).events = [] := by
  cases hurl : rt.parseURL (cd.baseURL ++ "/zones/" ++ cd.zoneID
      ++ "/dns_records?page=1&per_page=100&type=" ++ recordType ++ "&name=" ++ name) with
  | some err =>
    simp [CurrentDNSRecord, NewRequestWithContext, hurl, updateCalls, resolverCalls,
      patchRequests]
  | none =>
    simp only [CurrentDNSRecord, NewRequestWithContext, hurl]
    split <;> simp [updateCalls, resolverCalls, patchRequests, setHeaders]

/-- The resolvers invoke no `UpdateDNSRecord`, send no request and leave the provider alone. -/
theorem resolveNewIp_quiet {σ ρ : Type} (rt : Runtime σ ρ) (timeoutMillis : Int)
    (recordType : String) (w : World σ ρ) :
    updateCalls (resolveNewIp rt timeoutMillis recordType w).events = [] ∧
    patchRequests (resolveNewIp rt timeoutMillis recordType w).events = [] ∧
    (resolveNewIp rt timeoutMillis recordType w).world.provider = w.provider := by
  simp only [resolveNewIp, publicIpv4, publicIpv6]
  split_ifs
  · split <;> simp [updateCalls, patchRequests]
  · split <;> simp [updateCalls, patchRequests]
  · simp [updateCalls, patchRequests]

/-- An update records exactly one invocation, with its arguments. -/
theorem UpdateDNSRecord_updateCalls {σ ρ : Type} (rt : Runtime σ ρ) (cd : CloudflareDNS)
    (identifier recordType name content : String) (ttl : Int) (w : World σ ρ) :
    updateCalls (UpdateDNSRecord rt cd identifier recordType name content ttl w).events
      = [Event.UpdateDNSRecord identifier recordType name content ttl] := by
  cases hurl : rt.parseURL (cd.baseURL ++ "/zones/" ++ cd.zoneID ++ "/dns_records/"
      ++ identifier) with
  | some err => simp [UpdateDNSRecord, NewRequestWithContext, hurl, updateCalls]
  | none =>
    simp only [UpdateDNSRecord, NewRequestWithContext, hurl]
    split <;> simp [updateCalls]

theorem resolveNewIp_A {σ ρ : Type} (rt : Runtime σ ρ) (timeoutMillis : Int) (w : World σ ρ) :
    resolveNewIp rt timeoutMillis "A" w = publicIpv4 rt timeoutMillis w := by
  simp [resolveNewIp]

theorem resolveNewIp_AAAA {σ ρ : Type} (rt : Runtime σ ρ) (timeoutMillis : Int)
    (w : World σ ρ) :
    resolveNewIp rt timeoutMillis "AAAA" w = publicIpv6 rt timeoutMillis w := by
  have h : ("AAAA" : String) ≠ "A" := by decide
  simp [resolveNewIp, h]

/-- The resolver outcome for `A` or `AAAA`, read off the two-way hypothesis used below. -/
theorem resolveNewIp_of_family {σ ρ : Type} (rt : Runtime σ ρ) (timeoutMillis : Int)
    (recordType : String) (w : World σ ρ) (outcome : Except GoError String)
    (h : (recordType = "A" ∧ (publicIpv4 rt timeoutMillis w).result = outcome) ∨
      (recordType = "AAAA" ∧ (publicIpv6 rt timeoutMillis w).result = outcome)) :
    (resolveNewIp rt timeoutMillis recordType w).result = outcome := by
  rcases h with ⟨rfl, h⟩ | ⟨rfl, h⟩
  · rw [resolveNewIp_A]; exact h
  · rw [resolveNewIp_AAAA]; exact h

/-- C6: for record type `A` or `AAAA`, when the fetch succeeds and the resolver returns an
address equal, as a string, to the fetched record's content, `updateDNSRecord` returns no
error, never invokes `UpdateDNSRecord` and sends no `PATCH` request. -/
theorem updateDNSRecord_noop_when_equal {σ ρ : Type} (rt : Runtime σ ρ)
    (dnsTtl timeoutMillis : Int) (cfdns : CloudflareDNS) (recordType domainName : String)
    (w : World σ ρ) (dnsRecord : CloudflareDNSRecord) (newIp : String)
    (hfetch : (CurrentDNSRecord rt cfdns recordType domainName w).result = .ok dnsRecord)
    (hresolve :
      (recordType = "A" ∧
        (publicIpv4 rt timeoutMillis
          (CurrentDNSRecord rt cfdns recordType domainName w).world).result = .ok newIp) ∨
      (recordType = "AAAA" ∧
        (publicIpv6 rt timeoutMillis
          (CurrentDNSRecord rt cfdns recordType domainName w).world).result = .ok newIp))
    (hsame : dnsRecord.Content = newIp) :
    (updateDNSRecord rt dnsTtl timeoutMillis cfdns recordType domainName w).result = none ∧
    updateCalls (updateDNSRecord rt dnsTtl timeoutMillis cfdns recordType domainName w).events
      = [] ∧
    patchRequests (updateDNSRecord rt dnsTtl timeoutMillis cfdns recordType domainName w).events
      = [] := by
  have hres := resolveNewIp_of_family rt timeoutMillis recordType _ _ hresolve
  have hq1 := CurrentDNSRecord_quiet rt cfdns recordType domainName w
  have hq2 := resolveNewIp_quiet rt timeoutMillis recordType
    (CurrentDNSRecord rt cfdns recordType domainName w).world
  unfold updateDNSRecord
  simp only [hfetch, hres, hsame, ne_eq, not_true_eq_false, if_false]
  simp [updateCalls_append, patchRequests_append, hq1.1, hq1.2.2, hq2.1, hq2.2.1]

/-- Witness for C6: the `A` record already holds the host's address. -/
theorem updateDNSRecord_noop_when_equal_witness :
    (updateDNSRecord stubRuntime 60 10000 stubClient "A" "example.com" settledWorld).result
      = none ∧
    updateCalls
      (updateDNSRecord stubRuntime 60 10000 stubClient "A" "example.com" settledWorld).events
      = [] ∧
    patchRequests
      (updateDNSRecord stubRuntime 60 10000 stubClient "A" "example.com" settledWorld).events
      = [] :=
  updateDNSRecord_noop_when_equal stubRuntime 60 10000 stubClient "A" "example.com"
    settledWorld ⟨"record123", "example.com", "A", "192.0.2.2"⟩ "192.0.2.2" rfl
    (Or.inl ⟨rfl, rfl⟩) rfl

/-- C7: for record type `A` or `AAAA`, when the fetch succeeds and the resolver returns an
address that differs from the fetched record's content, `updateDNSRecord` invokes
`UpdateDNSRecord` exactly once, with the fetched record's identifier, type and name, the
resolved address as content and the configured TTL, and returns what that call returns,
leaving the services as that call leaves them; the `PATCH` requests of the run are those of
that one call. -/
theorem updateDNSRecord_updates_when_different {σ ρ : Type} (rt : Runtime σ ρ)
    (dnsTtl timeoutMillis : Int) (cfdns : CloudflareDNS) (recordType domainName : String)
    (w : World σ ρ) (dnsRecord : CloudflareDNSRecord) (newIp : String)
    (hfetch : (CurrentDNSRecord rt cfdns recordType domainName w).result = .ok dnsRecord)
    (hresolve :
      (recordType = "A" ∧
        (publicIpv4 rt timeoutMillis
          (CurrentDNSRecord rt cfdns recordType domainName w).world).result = .ok newIp) ∨
      (recordType = "AAAA" ∧
        (publicIpv6 rt timeoutMillis
          (CurrentDNSRecord rt cfdns recordType domainName w).world).result = .ok newIp))
    (hdiff : dnsRecord.Content ≠ newIp) :
    updateCalls (updateDNSRecord rt dnsTtl timeoutMillis cfdns recordType domainName w).events
      = [Event.UpdateDNSRecord dnsRecord.Identifier dnsRecord.RecordType dnsRecord.Name newIp
          dnsTtl] ∧
    (updateDNSRecord rt dnsTtl timeoutMillis cfdns recordType domainName w).result
      = (UpdateDNSRecord rt cfdns dnsRecord.Identifier dnsRecord.RecordType dnsRecord.Name newIp
          dnsTtl (resolveNewIp rt timeoutMillis recordType
            (CurrentDNSRecord rt cfdns recordType domainName w).world).world).result ∧
    (updateDNSRecord rt dnsTtl timeoutMillis cfdns recordType domainName w).world
      = (UpdateDNSRecord rt cfdns dnsRecord.Identifier dnsRecord.RecordType dnsRecord.Name newIp
          dnsTtl (resolveNewIp rt timeoutMillis recordType
            (CurrentDNSRecord rt cfdns recordType domainName w).world).world).world ∧
    patchRequests (updateDNSRecord rt dnsTtl timeoutMillis cfdns recordType domainName w).events
      = patchRequests (UpdateDNSRecord rt cfdns dnsRecord.Identifier dnsRecord.RecordType
          dnsRecord.Name newIp dnsTtl (resolveNewIp rt timeoutMillis recordType
            (CurrentDNSRecord rt cfdns recordType domainName w).world).world).events := by
  have hres := resolveNewIp_of_family rt timeoutMillis recordType _ _ hresolve
  have hq1 := CurrentDNSRecord_quiet rt cfdns recordType domainName w
  have hq2 := resolveNewIp_quiet rt timeoutMillis recordType
    (CurrentDNSRecord rt cfdns recordType domainName w).world
  have hu := UpdateDNSRecord_updateCalls rt cfdns dnsRecord.Identifier dnsRecord.RecordType
    dnsRecord.Name newIp dnsTtl (resolveNewIp rt timeoutMillis recordType
      (CurrentDNSRecord rt cfdns recordType domainName w).world).world
  unfold updateDNSRecord
  simp only [hfetch, hres, ne_eq, hdiff, not_false_eq_true, if_true]
  split <;> rename_i hupd <;>
    simp [updateCalls_append, hq1.1, hq2.1, hu, hupd, updateCalls_Printf, updateCalls_nil,
      patchRequests_append, hq1.2.2, hq2.2.1, patchRequests_Printf, patchRequests_nil]

/-- Witness for C7: the scenario of the specification, `192.0.2.1` published and `192.0.2.2`
resolved. -/
theorem updateDNSRecord_updates_when_different_witness :
    updateCalls
      (updateDNSRecord stubRuntime 60 10000 stubClient "A" "example.com" driftedWorld).events
      = [Event.UpdateDNSRecord "record123" "A" "example.com" "192.0.2.2" 60] ∧
    (updateDNSRecord stubRuntime 60 10000 stubClient "A" "example.com" driftedWorld).result
      = none :=
  have h := updateDNSRecord_updates_when_different stubRuntime 60 10000 stubClient "A"
    "example.com" driftedWorld ⟨"record123", "example.com", "A", "192.0.2.1"⟩ "192.0.2.2" rfl
    (Or.inl ⟨rfl, rfl⟩) (by decide)
  ⟨h.1, h.2.1.trans (by decide)⟩

/-- C10: for record type `A` or `AAAA`, a failed fetch makes `updateDNSRecord` return the
fetch's error unchanged, with no resolver invoked and no update issued; a failed address
resolution after a successful fetch makes it return the resolver's error unchanged, with no
update issued. -/
theorem updateDNSRecord_propagates_errors {σ ρ : Type} (rt : Runtime σ ρ)
    (dnsTtl timeoutMillis : Int) (cfdns : CloudflareDNS) (recordType domainName : String)
    (w : World σ ρ) (err : GoError) :
    ((CurrentDNSRecord rt cfdns recordType domainName w).result = .error err →
      (updateDNSRecord rt dnsTtl timeoutMillis cfdns recordType domainName w).result
        = some err ∧
      resolverCalls
        (updateDNSRecord rt dnsTtl timeoutMillis cfdns recordType domainName w).events = [] ∧
      updateCalls
        (updateDNSRecord rt dnsTtl timeoutMillis cfdns recordType domainName w).events = [] ∧
      patchRequests
        (updateDNSRecord rt dnsTtl timeoutMillis cfdns recordType domainName w).events = []) ∧
    (∀ dnsRecord,
      (CurrentDNSRecord rt cfdns recordType domainName w).result = .ok dnsRecord →
      ((recordType = "A" ∧
          (publicIpv4 rt timeoutMillis
            (CurrentDNSRecord rt cfdns recordType domainName w).world).result = .error err) ∨
        (recordType = "AAAA" ∧
          (publicIpv6 rt timeoutMillis
            (CurrentDNSRecord rt cfdns recordType domainName w).world).result = .error err)) →
      (updateDNSRecord rt dnsTtl timeoutMillis cfdns recordType domainName w).result
        = some err ∧
      updateCalls
        (updateDNSRecord rt dnsTtl timeoutMillis cfdns recordType domainName w).events = [] ∧
      patchRequests
        (updateDNSRecord rt dnsTtl timeoutMillis cfdns recordType domainName w).events = []) := by
  have hq1 := CurrentDNSRecord_quiet rt cfdns recordType domainName w
  have hq2 := resolveNewIp_quiet rt timeoutMillis recordType
    (CurrentDNSRecord rt cfdns recordType domainName w).world
  constructor
  · intro hfetch
    unfold updateDNSRecord
    simp only [hfetch]
    simp [hq1.1, hq1.2.1, hq1.2.2]
  · intro dnsRecord hfetch hresolve
    have hres := resolveNewIp_of_family rt timeoutMillis recordType _ _ hresolve
    unfold updateDNSRecord
    simp only [hfetch, hres]
    simp [updateCalls_append, patchRequests_append, hq1.1, hq1.2.2, hq2.1, hq2.2.1]

/-- Witness for C10: a zone without `A` record, and an IPv4 lookup that times out. -/
theorem updateDNSRecord_propagates_errors_witness :
    ((updateDNSRecord stubRuntime 60 10000 stubClient "A" "example.com" noAWorld).result
        = some "no matching DNS record found" ∧
      resolverCalls
        (updateDNSRecord stubRuntime 60 10000 stubClient "A" "example.com" noAWorld).events
        = [] ∧
      updateCalls
        (updateDNSRecord stubRuntime 60 10000 stubClient "A" "example.com" noAWorld).events
        = [] ∧
      patchRequests
        (updateDNSRecord stubRuntime 60 10000 stubClient "A" "example.com" noAWorld).events
        = []) ∧
    ((updateDNSRecord stubRuntime 60 10000 stubClient "A" "example.com" deafWorld).result
        = some "lookup myip.opendns.com: i/o timeout" ∧
      updateCalls
        (updateDNSRecord stubRuntime 60 10000 stubClient "A" "example.com" deafWorld).events
        = [] ∧
      patchRequests
        (updateDNSRecord stubRuntime 60 10000 stubClient "A" "example.com" deafWorld).events
        = []) :=
  ⟨(updateDNSRecord_propagates_errors stubRuntime 60 10000 stubClient "A" "example.com"
      noAWorld "no matching DNS record found").1 rfl,
   (updateDNSRecord_propagates_errors stubRuntime 60 10000 stubClient "A" "example.com"
      deafWorld "lookup myip.opendns.com: i/o timeout").2
      ⟨"record123", "example.com", "A", "192.0.2.1"⟩ rfl (Or.inl ⟨rfl, rfl⟩)⟩

/-! ## The driver -/

/-- C8: in `main`, once the domain name and the client are in place, a failed `A`-record fetch
is reported and the `AAAA` reconciliation is run all the same, from the state the failed fetch
left; its events and its report close the run. A run whose `A` reconciliation succeeds and
leaves the services in that same state has the very same `AAAA` part. -/
theorem main_isolates_A_fetch_failure {σ ρ : Type} (rt : Runtime σ ρ)
    (environ : String → Option String) (domainFlag : String) (dnsTtl timeoutMillis : Int)
    (w : World σ ρ) (cfdns : CloudflareDNS) (domainName : String) (err : GoError)
    (hdomain : (if domainFlag = "" then environ "DOMAIN_NAME" else some domainFlag)
      = some domainName)
    (hclient : NewCloudflareDNS environ (some {}) = .ok cfdns)
    (hfail : (CurrentDNSRecord rt cfdns "A" domainName w).result = .error err) :
    (main rt environ domainFlag dnsTtl timeoutMillis w).result = .returned ∧
    (main rt environ domainFlag dnsTtl timeoutMillis w).events
      = (CurrentDNSRecord rt cfdns "A" domainName w).events
        ++ [Event.Printf ("Error updating A record: " ++ err ++ "\n")]
        ++ (updateDNSRecord rt dnsTtl timeoutMillis cfdns "AAAA" domainName
            (CurrentDNSRecord rt cfdns "A" domainName w).world).events
        ++ reportError "Error updating AAAA record: " (updateDNSRecord rt dnsTtl timeoutMillis cfdns "AAAA" domainName
            (CurrentDNSRecord rt cfdns "A" domainName w).world).result ∧
    (main rt environ domainFlag dnsTtl timeoutMillis w).world
      = (updateDNSRecord rt dnsTtl timeoutMillis cfdns "AAAA" domainName
          (CurrentDNSRecord rt cfdns "A" domainName w).world).world ∧
    ∀ w2 : World σ ρ,
      (updateDNSRecord rt dnsTtl timeoutMillis cfdns "A" domainName w2).result = none →
      (updateDNSRecord rt dnsTtl timeoutMillis cfdns "A" domainName w2).world
        = (CurrentDNSRecord rt cfdns "A" domainName w).world →
      (main rt environ domainFlag dnsTtl timeoutMillis w2).result = .returned ∧
      (main rt environ domainFlag dnsTtl timeoutMillis w2).events
        = (updateDNSRecord rt dnsTtl timeoutMillis cfdns "A" domainName w2).events
          ++ (updateDNSRecord rt dnsTtl timeoutMillis cfdns "AAAA" domainName
              (CurrentDNSRecord rt cfdns "A" domainName w).world).events
          ++ reportError "Error updating AAAA record: " (updateDNSRecord rt dnsTtl timeoutMillis cfdns "AAAA" domainName
              (CurrentDNSRecord rt cfdns "A" domainName w).world).result ∧
      (main rt environ domainFlag dnsTtl timeoutMillis w2).world
        = (updateDNSRecord rt dnsTtl timeoutMillis cfdns "AAAA" domainName
            (CurrentDNSRecord rt cfdns "A" domainName w).world).world := by
  have hfirst : updateDNSRecord rt dnsTtl timeoutMillis cfdns "A" domainName w
      = ⟨some err, (CurrentDNSRecord rt cfdns "A" domainName w).world,
          (CurrentDNSRecord rt cfdns "A" domainName w).events⟩ := by
    simp only [updateDNSRecord, hfail]
  refine ⟨?_, ?_, ?_, ?_⟩
  · simp only [main, hdomain, hclient]
  · simp only [main, hdomain, hclient, hfirst, reportError]
  · simp only [main, hdomain, hclient, hfirst]
  · intro w2 hok hworld
    refine ⟨?_, ?_, ?_⟩
    · simp only [main, hdomain, hclient]
    · simp only [main, hdomain, hclient, hok, hworld, reportError, List.append_nil]
    · simp only [main, hdomain, hclient, hworld]

/-- Witness for C8: the first request of the run is dropped, so the `A` fetch fails; the
`AAAA` record is reconciled as in the run over a steady connection. -/
theorem main_isolates_A_fetch_failure_witness :
    updateCalls (main stubRuntime stubEnviron "" 60 10000 flakyWorld).events
      = [Event.UpdateDNSRecord "record456" "AAAA" "example.com" "2001:db8::2" 60] ∧
    (main stubRuntime stubEnviron "" 60 10000 flakyWorld).world
      = (main stubRuntime stubEnviron "" 60 10000 steadyWorld).world :=
  have h := main_isolates_A_fetch_failure stubRuntime stubEnviron "" 60 10000 flakyWorld
    stubClient "example.com" "failed to send request: connection refused" rfl rfl rfl
  ⟨(congrArg updateCalls h.2.1).trans (by decide),
    h.2.2.1.trans (h.2.2.2 steadyWorld (by decide) rfl).2.2.symm⟩

/-! ## Two runs in a row -/

theorem stub_fetch_url :
    stubClient.baseURL ++ "/zones/" ++ stubClient.zoneID
      ++ "/dns_records?page=1&per_page=100&type=" ++ "A" ++ "&name=" ++ "example.com"
    = "https://api.cloudflare.com/client/v4/zones/zone123/dns_records?page=1&per_page=100&type=A&name=example.com" := by
  decide

theorem stub_patch_url :
    stubClient.baseURL ++ "/zones/" ++ stubClient.zoneID ++ "/dns_records/" ++ "record123"
    = "https://api.cloudflare.com/client/v4/zones/zone123/dns_records/record123" := by
  decide

/-- What a successful fetch of the `A` record tells about the stub's state. -/
theorem stub_fetch_ok (w : World StubZone StubResolver) (record : CloudflareDNSRecord)
    (h : (CurrentDNSRecord stubRuntime stubClient "A" "example.com" w).result = .ok record) :
    w.provider.a = some record.content ∧ record.id = "record123" ∧
      record.recordType = "A" ∧ record.name = "example.com" ∧
      (CurrentDNSRecord stubRuntime stubClient "A" "example.com" w).world.provider
        = w.provider := by
  simp only [CurrentDNSRecord, NewRequestWithContext, stubRuntime, stub_fetch_url,
    stubRoundTrip] at h ⊢
  cases hd : w.provider.dropRequests with
  | succ n => simp [hd] at h
  | zero =>
    simp only [hd] at h ⊢
    cases ha : w.provider.a with
    | none =>
      simp [stubHandler, setHeaders, stubSuccess, ha, readCurrentDNSRecord] at h
    | some c =>
      simp [stubHandler, setHeaders, stubSuccess, ha, readCurrentDNSRecord] at h ⊢
      subst h
      simp

/-- A successful update of `record123` leaves the written content in the stub's `A` record. -/
theorem stub_update_ok (w : World StubZone StubResolver) (recordType name content : String)
    (ttl : Int)
    (h : (UpdateDNSRecord stubRuntime stubClient "record123" recordType name content ttl
      w).result = none) :
    (UpdateDNSRecord stubRuntime stubClient "record123" recordType name content ttl
      w).world.provider.a = some content := by
  simp only [UpdateDNSRecord, NewRequestWithContext, stubRuntime, stub_patch_url,
    stubRoundTrip] at h ⊢
  cases hd : w.provider.dropRequests with
  | succ n => simp [hd] at h
  | zero =>
    simp only [hd] at h ⊢
    have hm : ("PATCH" : String) ≠ "GET" := by decide
    have hdec := Json.Decode_Encode (dnsPatch recordType name content ttl)
    cases hr : w.provider.rejectPatches with
    | succ n => simp [stubHandler, setHeaders, hm, hr, stubFailure, handleResponse] at h
    | zero =>
      simp only [stubHandler, setHeaders, hm, hr, if_false, if_true, Option.bind, hdec,
        true_and] at h ⊢
      cases ha : w.provider.a with
      | some c => simp [ha, dnsPatch]
      | none =>
        have hu : ("https://api.cloudflare.com/client/v4/zones/zone123/dns_records/record123"
            : String) ≠ "https://api.cloudflare.com/client/v4/zones/zone123/dns_records/record456" := by
          decide
        simp [ha, hu, stubFailure, handleResponse] at h

theorem stub_ReadsBackWrites : ReadsBackWrites stubRuntime stubClient "A" "example.com" := by
  intro w record resolver content ttl hfetch hupd record2 hfetch2
  obtain ⟨-, hid, -, -, -⟩ := stub_fetch_ok w record hfetch
  have hid2 : record.Identifier = "record123" := hid
  rw [hid2] at hupd hfetch2
  have ha := stub_update_ok _ _ _ _ _ hupd
  obtain ⟨ha2, -⟩ := stub_fetch_ok _ record2 hfetch2
  rw [ha] at ha2
  exact (Option.some.inj ha2).symm

theorem stub_StableReads : StableReads stubRuntime stubClient "A" "example.com" := by
  intro w record resolver hfetch record2 hfetch2
  obtain ⟨ha, -, -, -, hp⟩ := stub_fetch_ok w record hfetch
  obtain ⟨ha2, -⟩ := stub_fetch_ok _ record2 hfetch2
  simp only [hp] at ha2
  rw [ha] at ha2
  exact (Option.some.inj ha2).symm

/-- What a successful fetch of the `A` record tells about the shared provider's state. -/
theorem shared_fetch_ok (w : World SharedZone StubResolver) (record : CloudflareDNSRecord)
    (h : (CurrentDNSRecord sharedRuntime stubClient "A" "example.com" w).result = .ok record) :
    w.provider.zone.a = some record.content ∧ record.id = "record123" ∧
      (CurrentDNSRecord sharedRuntime stubClient "A" "example.com" w).world.provider.pending
        = none := by
  simp only [CurrentDNSRecord, NewRequestWithContext, sharedRuntime, stub_fetch_url,
    sharedRoundTrip, stubRoundTrip] at h ⊢
  cases hd : w.provider.zone.dropRequests with
  | succ n => cases hp : w.provider.pending <;> simp [hd, hp] at h
  | zero =>
    cases ha : w.provider.zone.a with
    | none =>
      cases hp : w.provider.pending <;>
        simp [hd, hp, stubHandler, setHeaders, stubSuccess, ha, readCurrentDNSRecord] at h
    | some c =>
      cases hp : w.provider.pending <;>
        · simp [hd, hp, stubHandler, setHeaders, stubSuccess, ha, readCurrentDNSRecord] at h ⊢
          subst h
          simp

/-- A successful update of `record123`, with no foreign edit pending, leaves the written
content in the shared provider's `A` record. -/
theorem shared_update_ok (w : World SharedZone StubResolver) (recordType name content : String)
    (ttl : Int) (hp : w.provider.pending = none)
    (h : (UpdateDNSRecord sharedRuntime stubClient "record123" recordType name content ttl
      w).result = none) :
    (UpdateDNSRecord sharedRuntime stubClient "record123" recordType name content ttl
      w).world.provider.zone.a = some content := by
  simp only [UpdateDNSRecord, NewRequestWithContext, sharedRuntime, stub_patch_url,
    sharedRoundTrip, stubRoundTrip, hp] at h ⊢
  cases hd : w.provider.zone.dropRequests with
  | succ n => simp [hd] at h
  | zero =>
    simp only [hd] at h ⊢
    have hm : ("PATCH" : String) ≠ "GET" := by decide
    have hdec := Json.Decode_Encode (dnsPatch recordType name content ttl)
    cases hr : w.provider.zone.rejectPatches with
    | succ n => simp [stubHandler, setHeaders, hm, hr, stubFailure, handleResponse] at h
    | zero =>
      simp only [stubHandler, setHeaders, hm, hr, if_false, if_true, Option.bind, hdec,
        true_and] at h ⊢
      cases ha : w.provider.zone.a with
      | some c => simp [ha, dnsPatch]
      | none =>
        have hu : ("https://api.cloudflare.com/client/v4/zones/zone123/dns_records/record123"
            : String) ≠ "https://api.cloudflare.com/client/v4/zones/zone123/dns_records/record456" := by
          decide
        simp [ha, hu, stubFailure, handleResponse] at h

theorem shared_ReadsBackWrites :
    ReadsBackWrites sharedRuntime stubClient "A" "example.com" := by
  intro w record resolver content ttl hfetch hupd record2 hfetch2
  obtain ⟨-, hid, hpending⟩ := shared_fetch_ok w record hfetch
  have hid2 : record.Identifier = "record123" := hid
  rw [hid2] at hupd hfetch2
  have ha := shared_update_ok
    ⟨(CurrentDNSRecord sharedRuntime stubClient "A" "example.com" w).world.provider, resolver⟩
    _ _ _ _ hpending hupd
  obtain ⟨ha2, -⟩ := shared_fetch_ok _ record2 hfetch2
  rw [ha] at ha2
  exact (Option.some.inj ha2).symm

/-- C9 as stated fails, in two ways. With a resolver that answers the same both times and a
provider that reads back every successful write, the second of two runs in a row still issues
an update (a) when the update of the first run was turned down, and (b) when the first run
found nothing to do and someone else changed the record before the second. -/
theorem second_run_may_update :
    (ReadsBackWrites stubRuntime stubClient "A" "example.com" ∧
      StableReads stubRuntime stubClient "A" "example.com" ∧
      (resolveNewIp stubRuntime 10000 "A"
          (CurrentDNSRecord stubRuntime stubClient "A" "example.com"
            (updateDNSRecord stubRuntime 60 10000 stubClient "A" "example.com"
              throttledWorld).world).world).result = .ok "192.0.2.2" ∧
      (resolveNewIp stubRuntime 10000 "A"
          (CurrentDNSRecord stubRuntime stubClient "A" "example.com"
            throttledWorld).world).result = .ok "192.0.2.2" ∧
      (updateDNSRecord stubRuntime 60 10000 stubClient "A" "example.com" throttledWorld).result
        = some "unsuccessful API call: Error: Rate limited\n" ∧
      updateCalls
        (updateDNSRecord stubRuntime 60 10000 stubClient "A" "example.com"
          (updateDNSRecord stubRuntime 60 10000 stubClient "A" "example.com"
            throttledWorld).world).events
        = [Event.UpdateDNSRecord "record123" "A" "example.com" "192.0.2.2" 60]) ∧
    (ReadsBackWrites sharedRuntime stubClient "A" "example.com" ∧
      (resolveNewIp sharedRuntime 10000 "A"
          (CurrentDNSRecord sharedRuntime stubClient "A" "example.com"
            (updateDNSRecord sharedRuntime 60 10000 stubClient "A" "example.com"
              contestedWorld).world).world).result = .ok "192.0.2.2" ∧
      (resolveNewIp sharedRuntime 10000 "A"
          (CurrentDNSRecord sharedRuntime stubClient "A" "example.com"
            contestedWorld).world).result = .ok "192.0.2.2" ∧
      (updateDNSRecord sharedRuntime 60 10000 stubClient "A" "example.com"
        contestedWorld).result = none ∧
      updateCalls
        (updateDNSRecord sharedRuntime 60 10000 stubClient "A" "example.com"
          (updateDNSRecord sharedRuntime 60 10000 stubClient "A" "example.com"
            contestedWorld).world).events
        = [Event.UpdateDNSRecord "record123" "A" "example.com" "192.0.2.2" 60]) :=
  ⟨⟨stub_ReadsBackWrites, stub_StableReads, rfl, rfl, by decide, by decide⟩,
    ⟨shared_ReadsBackWrites, rfl, rfl, by decide, by decide⟩⟩

/-- The provider state a resolver call leaves is the one it found. -/
theorem resolveNewIp_world {σ ρ : Type} (rt : Runtime σ ρ) (timeoutMillis : Int)
    (recordType : String) (w : World σ ρ) :
    (⟨w.provider, (resolveNewIp rt timeoutMillis recordType w).world.resolver⟩ : World σ ρ)
      = (resolveNewIp rt timeoutMillis recordType w).world := by
  have h := (resolveNewIp_quiet rt timeoutMillis recordType w).2.2
  cases hw : (resolveNewIp rt timeoutMillis recordType w).world with
  | mk p r =>
    rw [hw] at h
    simp only at h
    rw [h]

/-- C9, amended: when the first of two runs in a row returns no error, the resolver gives the
same outcome in both runs, and the provider reads back successful writes and has stable
reads, the second run invokes no `UpdateDNSRecord` and sends no `PATCH`. -/
theorem updateDNSRecord_second_run_quiet {σ ρ : Type} (rt : Runtime σ ρ)
    (dnsTtl timeoutMillis : Int) (cfdns : CloudflareDNS) (recordType domainName : String)
    (w : World σ ρ)
    (hwrites : ReadsBackWrites rt cfdns recordType domainName)
    (hstable : StableReads rt cfdns recordType domainName)
    (hfirst : (updateDNSRecord rt dnsTtl timeoutMillis cfdns recordType domainName w).result
      = none)
    (hsame :
      (resolveNewIp rt timeoutMillis recordType
        (CurrentDNSRecord rt cfdns recordType domainName
          (updateDNSRecord rt dnsTtl timeoutMillis cfdns recordType domainName
            w).world).world).result
      = (resolveNewIp rt timeoutMillis recordType
          (CurrentDNSRecord rt cfdns recordType domainName w).world).result) :
    updateCalls
      (updateDNSRecord rt dnsTtl timeoutMillis cfdns recordType domainName
        (updateDNSRecord rt dnsTtl timeoutMillis cfdns recordType domainName w).world).events
      = [] ∧
    patchRequests
      (updateDNSRecord rt dnsTtl timeoutMillis cfdns recordType domainName
        (updateDNSRecord rt dnsTtl timeoutMillis cfdns recordType domainName w).world).events
      = [] := by
  -- the first run: fetch and resolution succeeded, and the provider now holds `newIp`
  obtain ⟨record, newIp, hfetch, hres, hheld⟩ : ∃ record newIp,
      (CurrentDNSRecord rt cfdns recordType domainName w).result = .ok record ∧
      (resolveNewIp rt timeoutMillis recordType
        (CurrentDNSRecord rt cfdns recordType domainName w).world).result = .ok newIp ∧
      ∀ record2,
        (CurrentDNSRecord rt cfdns recordType domainName
          (updateDNSRecord rt dnsTtl timeoutMillis cfdns recordType domainName
            w).world).result = .ok record2 → record2.Content = newIp := by
    cases hfetch : (CurrentDNSRecord rt cfdns recordType domainName w).result with
    | error err => simp [updateDNSRecord, hfetch] at hfirst
    | ok record =>
      cases hres : (resolveNewIp rt timeoutMillis recordType
          (CurrentDNSRecord rt cfdns recordType domainName w).world).result with
      | error err => simp [updateDNSRecord, hfetch, hres] at hfirst
      | ok newIp =>
        refine ⟨record, newIp, rfl, rfl, ?_⟩
        have hworld := resolveNewIp_world rt timeoutMillis recordType
          (CurrentDNSRecord rt cfdns recordType domainName w).world
        by_cases hsameContent : record.Content = newIp
        · have hrun : (updateDNSRecord rt dnsTtl timeoutMillis cfdns recordType domainName
              w).world = (resolveNewIp rt timeoutMillis recordType
                (CurrentDNSRecord rt cfdns recordType domainName w).world).world := by
            simp [updateDNSRecord, hfetch, hres, hsameContent]
          intro record2 h2
          rw [hrun, ← hworld] at h2
          rw [hstable w record _ hfetch record2 h2, hsameContent]
        · have hupd : (UpdateDNSRecord rt cfdns record.Identifier record.RecordType record.Name
              newIp dnsTtl (resolveNewIp rt timeoutMillis recordType
                (CurrentDNSRecord rt cfdns recordType domainName w).world).world).result
              = none := by
            simp only [updateDNSRecord, hfetch, hres, ne_eq, hsameContent, not_false_eq_true,
              if_true] at hfirst
            split at hfirst
            · simp at hfirst
            · assumption
          have hrun : (updateDNSRecord rt dnsTtl timeoutMillis cfdns recordType domainName
              w).world = (UpdateDNSRecord rt cfdns record.Identifier record.RecordType
                record.Name newIp dnsTtl (resolveNewIp rt timeoutMillis recordType
                  (CurrentDNSRecord rt cfdns recordType domainName w).world).world).world := by
            simp [updateDNSRecord, hfetch, hres, hsameContent, hupd]
          intro record2 h2
          rw [hrun, ← hworld] at h2
          rw [← hworld] at hupd
          exact hwrites w record _ newIp dnsTtl hfetch hupd record2 h2
  -- the second run
  rw [hres] at hsame
  have hq1 := CurrentDNSRecord_quiet rt cfdns recordType domainName
    (updateDNSRecord rt dnsTtl timeoutMillis cfdns recordType domainName w).world
  have hq2 := resolveNewIp_quiet rt timeoutMillis recordType
    (CurrentDNSRecord rt cfdns recordType domainName
      (updateDNSRecord rt dnsTtl timeoutMillis cfdns recordType domainName w).world).world
  cases hfetch2 : (CurrentDNSRecord rt cfdns recordType domainName
      (updateDNSRecord rt dnsTtl timeoutMillis cfdns recordType domainName w).world).result with
  | error err =>
    rw [updateDNSRecord]
    simp only [hfetch2]
    exact ⟨hq1.1, hq1.2.2⟩
  | ok record2 =>
    have hcontent := hheld record2 hfetch2
    rw [updateDNSRecord]
    simp only [hfetch2, hsame, hcontent, ne_eq, not_true_eq_false, if_false]
    simp [updateCalls_append, patchRequests_append, hq1.1, hq1.2.2, hq2.1, hq2.2.1]

/-- Witness for C9, amended: the first run writes `192.0.2.2`, the second finds it in place. -/
theorem updateDNSRecord_second_run_quiet_witness :
    updateCalls
      (updateDNSRecord stubRuntime 60 10000 stubClient "A" "example.com"
        (updateDNSRecord stubRuntime 60 10000 stubClient "A" "example.com"
          driftedWorld).world).events
      = [] ∧
    patchRequests
      (updateDNSRecord stubRuntime 60 10000 stubClient "A" "example.com"
        (updateDNSRecord stubRuntime 60 10000 stubClient "A" "example.com"
          driftedWorld).world).events
      = [] :=
  updateDNSRecord_second_run_quiet stubRuntime 60 10000 stubClient "A" "example.com"
    driftedWorld stub_ReadsBackWrites stub_StableReads (by decide) rfl

/-! ## Record types without a resolver -/

/-- For a type other than `A` and `AAAA` the `switch` runs nothing and `newIp` stays empty. -/
theorem resolveNewIp_other {σ ρ : Type} (rt : Runtime σ ρ) (timeoutMillis : Int)
    (recordType : String) (w : World σ ρ) (hA : recordType ≠ "A") (hAAAA : recordType ≠ "AAAA") :
    resolveNewIp rt timeoutMillis recordType w = ⟨.ok "", w, []⟩ := by
  simp [resolveNewIp, hA, hAAAA]

/-- An update invokes no resolver. -/
theorem UpdateDNSRecord_resolverCalls {σ ρ : Type} (rt : Runtime σ ρ) (cd : CloudflareDNS)
    (identifier recordType name content : String) (ttl : Int) (w : World σ ρ) :
    resolverCalls (UpdateDNSRecord rt cd identifier recordType name content ttl w).events
      = [] := by
  cases hurl : rt.parseURL (cd.baseURL ++ "/zones/" ++ cd.zoneID ++ "/dns_records/"
      ++ identifier) with
  | some err => simp [UpdateDNSRecord, NewRequestWithContext, hurl, resolverCalls]
  | none =>
    simp only [UpdateDNSRecord, NewRequestWithContext, hurl]
    split <;> simp [resolverCalls]

theorem resolverCalls_Printf (line : String) (rest : List Event) :
    resolverCalls (Event.Printf line :: rest) = resolverCalls rest := rfl

theorem resolverCalls_nil : resolverCalls [] = [] := rfl

/-- C11: for a record type other than `A` and `AAAA` whose fetch succeeds, `updateDNSRecord`
invokes no resolver and compares the fetched content with the empty string: when the content is
non-empty it invokes `UpdateDNSRecord` exactly once, for the fetched record, with the empty
string as content, and returns what that call returns; when the content is empty it issues no
update and returns no error. -/
theorem updateDNSRecord_other_record_type {σ ρ : Type} (rt : Runtime σ ρ)
    (dnsTtl timeoutMillis : Int) (cfdns : CloudflareDNS) (recordType domainName : String)
    (w : World σ ρ) (dnsRecord : CloudflareDNSRecord)
    (hA : recordType ≠ "A") (hAAAA : recordType ≠ "AAAA")
    (hfetch : (CurrentDNSRecord rt cfdns recordType domainName w).result = .ok dnsRecord) :
    resolverCalls
      (updateDNSRecord rt dnsTtl timeoutMillis cfdns recordType domainName w).events = [] ∧
    (dnsRecord.Content ≠ "" →
      updateCalls
        (updateDNSRecord rt dnsTtl timeoutMillis cfdns recordType domainName w).events
        = [Event.UpdateDNSRecord dnsRecord.Identifier dnsRecord.RecordType dnsRecord.Name ""
            dnsTtl] ∧
      (updateDNSRecord rt dnsTtl timeoutMillis cfdns recordType domainName w).result
        = (UpdateDNSRecord rt cfdns dnsRecord.Identifier dnsRecord.RecordType dnsRecord.Name ""
            dnsTtl (CurrentDNSRecord rt cfdns recordType domainName w).world).result ∧
      (updateDNSRecord rt dnsTtl timeoutMillis cfdns recordType domainName w).world
        = (UpdateDNSRecord rt cfdns dnsRecord.Identifier dnsRecord.RecordType dnsRecord.Name ""
            dnsTtl (CurrentDNSRecord rt cfdns recordType domainName w).world).world ∧
      patchRequests
        (updateDNSRecord rt dnsTtl timeoutMillis cfdns recordType domainName w).events
        = patchRequests (UpdateDNSRecord rt cfdns dnsRecord.Identifier dnsRecord.RecordType
            dnsRecord.Name "" dnsTtl
            (CurrentDNSRecord rt cfdns recordType domainName w).world).events) ∧
    (dnsRecord.Content = "" →
      (updateDNSRecord rt dnsTtl timeoutMillis cfdns recordType domainName w).result = none ∧
      updateCalls
        (updateDNSRecord rt dnsTtl timeoutMillis cfdns recordType domainName w).events = [] ∧
      patchRequests
        (updateDNSRecord rt dnsTtl timeoutMillis cfdns recordType domainName w).events
        = []) := by
  have hres := resolveNewIp_other rt timeoutMillis recordType
    (CurrentDNSRecord rt cfdns recordType domainName w).world hA hAAAA
  have hq := CurrentDNSRecord_quiet rt cfdns recordType domainName w
  have hu := UpdateDNSRecord_updateCalls rt cfdns dnsRecord.Identifier dnsRecord.RecordType
    dnsRecord.Name "" dnsTtl (CurrentDNSRecord rt cfdns recordType domainName w).world
  have hr := UpdateDNSRecord_resolverCalls rt cfdns dnsRecord.Identifier dnsRecord.RecordType
    dnsRecord.Name "" dnsTtl (CurrentDNSRecord rt cfdns recordType domainName w).world
  refine ⟨?_, ?_, ?_⟩
  · simp only [updateDNSRecord, hfetch, hres]
    by_cases hc : dnsRecord.Content = ""
    · simp [hc, hq.2.1]
    · simp only [ne_eq, hc, not_false_eq_true, if_true]
      split <;>
        simp [resolverCalls_append, hq.2.1, hr, resolverCalls_Printf, resolverCalls_nil]
  · intro hc
    simp only [updateDNSRecord, hfetch, hres, ne_eq, hc, not_false_eq_true, if_true]
    split <;> rename_i hupd <;>
      simp [updateCalls_append, hq.1, hu, hupd, updateCalls_Printf, updateCalls_nil,
        patchRequests_append, hq.2.2, patchRequests_Printf, patchRequests_nil]
  · intro hc
    simp only [updateDNSRecord, hfetch, hres, ne_eq, hc, not_true_eq_false, if_false]
    simp [hq.1, hq.2.2]

/-- Witness for C11: a `TXT` record with content is emptied, an empty one is left alone. -/
theorem updateDNSRecord_other_record_type_witness :
    resolverCalls
      (updateDNSRecord txtRuntime 60 10000 stubClient "TXT" "example.com" txtWorld).events
      = [] ∧
    updateCalls
      (updateDNSRecord txtRuntime 60 10000 stubClient "TXT" "example.com" txtWorld).events
      = [Event.UpdateDNSRecord "record789" "TXT" "example.com" "" 60] ∧
    (updateDNSRecord txtRuntime 60 10000 stubClient "TXT" "example.com" txtWorld).world.provider
      = "" ∧
    (updateDNSRecord txtRuntime 60 10000 stubClient "TXT" "example.com" emptyTxtWorld).result
      = none ∧
    updateCalls
      (updateDNSRecord txtRuntime 60 10000 stubClient "TXT" "example.com" emptyTxtWorld).events
      = [] :=
  have h := updateDNSRecord_other_record_type txtRuntime 60 10000 stubClient "TXT"
    "example.com" txtWorld ⟨"record789", "example.com", "TXT", "v=spf1 -all"⟩
    (by decide) (by decide) rfl
  have h0 := updateDNSRecord_other_record_type txtRuntime 60 10000 stubClient "TXT"
    "example.com" emptyTxtWorld ⟨"record789", "example.com", "TXT", ""⟩
    (by decide) (by decide) rfl
  ⟨h.1, (h.2.1 (by decide)).1, (congrArg World.provider (h.2.1 (by decide)).2.2.1).trans
    (by decide), (h0.2.2 rfl).1, (h0.2.2 rfl).2.1⟩

end DynamicDns
